import Mathlib

/-!
Verification development for the PyBoy motherboard coordinator
(pyboy/core/mb.py).

The Motherboard class is translated into a Lean state structure together
with executable functions for the bus (getitem/setitem), the DMA transfer,
the tick loop, breakpoints, and save/load of the aggregate state.

Peripherals (CPU, LCD, timer, sound, cartridge, interaction, renderer) are
external collaborators: only their interfaces are specified.  Their state
is modelled by small structures holding the fields mb.py reads directly,
and their behaviour (cartridge getitem/setitem, timer tick, LCD tick, ...)
is abstracted into a bundle of operations `Ops` that every theorem
quantifies over, mirroring the spec's "for each collaborator we specify
only the interface the coordinator requires".
-/

/-- Interrupt flag bit VBLANK = 1 (mb.py line 14). -/
def INTR_VBLANK : Nat := 1
/-- Interrupt flag bit LCDC = 2 (mb.py line 14). -/
def INTR_LCDC : Nat := 2
/-- Interrupt flag bit TIMER = 4 (mb.py line 14). -/
def INTR_TIMER : Nat := 4
/-- Interrupt flag bit SERIAL = 8 (mb.py line 14). -/
def INTR_SERIAL : Nat := 8
/-- Interrupt flag bit HIGHTOLOW = 16 (mb.py line 14). -/
def INTR_HIGHTOLOW : Nat := 16

/-- Modelled from the spec: `STATE_VERSION` lives in pyboy/utils.py, which
is not part of the sources.  The spec's load rules go up to "v >= 6: read
the sound block" and the save layout includes the sound block, so the
current version is modelled as 6. -/
def STATE_VERSION : Nat := 6

/-- Modelled from the spec: timer peripheral state; mb.py reads the fields
DIV, TIMA, TMA, TAC directly, everything else is opaque (`internal`). -/
structure Timer where
  DIV : Nat
  TIMA : Nat
  TMA : Nat
  TAC : Nat
  internal : Nat

/-- Modelled from the spec: CPU peripheral state; mb.py reads/writes PC,
the two interrupt registers, profiling and hitrate directly. -/
structure CPU where
  PC : Nat
  interrupts_flag_register : Nat
  interrupts_enabled_register : Nat
  profiling : Bool
  hitrate : Nat → Int
  internal : Nat

/-- Modelled from the spec: peripherals OR bits into the CPU's interrupt
flag register through this single operation. -/
def CPU.set_interruptflag (c : CPU) (flag : Nat) : CPU :=
  { c with interrupts_flag_register := c.interrupts_flag_register ||| flag }

/-- Modelled from the spec: a palette register (BGP/OBP0/OBP1) exposing its
raw byte `value`; its setter is abstract (`Ops.palSet`) and returns a
"changed" boolean. -/
structure PaletteRegister where
  value : Nat
  internal : Nat

/-- Modelled from the spec: the LCDC control register exposing its raw byte
`value`; its setter is abstract (`Ops.lcdcSet`). -/
structure LCDCRegister where
  value : Nat
  internal : Nat

/-- Modelled from the spec: LCD peripheral state; mb.py accesses VRAM, OAM
and the named registers directly, the STAT/LY state machine is opaque. -/
structure LCD where
  VRAM : Nat → Nat
  OAM : Nat → Nat
  LCDC : LCDCRegister
  STAT : Nat
  SCY : Nat
  SCX : Nat
  LY : Nat
  LYC : Nat
  WY : Nat
  WX : Nat
  BGP : PaletteRegister
  OBP0 : PaletteRegister
  OBP1 : PaletteRegister
  internal : Nat

/-- Modelled from the spec: renderer state; mb.py accesses the
`tiles_changed` set and the `clearcache` flag directly. -/
structure Renderer where
  tiles_changed : List Nat
  clearcache : Bool
  internal : Nat

/-- Modelled from the spec: sound (APU) state; mb.py advances `clock`
directly, the register file is behind abstract get/set operations. -/
structure Sound where
  clock : Int
  internal : Nat

/-- Modelled from the spec: cartridge (MBC) state; mb.py reads the selected
ROM/RAM bank numbers directly, banking logic is abstract. -/
structure Cartridge where
  rombank_selected : Int
  rambank_selected : Int
  internal : Nat

/-- Modelled from the spec: the fixed 256-byte boot ROM. -/
structure BootROM where
  data : Nat → Nat

/-- Modelled from the spec: boot ROM read access. -/
def BootROM.getitem (b : BootROM) (i : Nat) : Nat := b.data i

/-- Modelled from the spec: interaction (joypad) peripheral, an opaque
button-matrix state behind `Ops.interactionPull`. -/
structure Interaction where
  internal : Nat

/-- Modelled from the spec: work RAM banks and scratch regions, each an
abstract byte-addressable array. -/
structure RAM where
  internal_ram0 : Nat → Nat
  non_io_internal_ram0 : Nat → Nat
  io_ports : Nat → Nat
  non_io_internal_ram1 : Nat → Nat
  internal_ram1 : Nat → Nat

/-- The Motherboard state: exclusive owner of every peripheral
(mb.py `Motherboard.__init__`).  `sound` is `none` exactly when the
Python object has no `sound` attribute (it is only created when
`sound_enabled` is true). -/
structure Motherboard where
  timer : Timer
  interaction : Interaction
  cartridge : Cartridge
  bootrom : BootROM
  ram : RAM
  cpu : CPU
  lcd : LCD
  renderer : Renderer
  sound_enabled : Bool
  sound : Option Sound
  bootrom_enabled : Bool
  serialbuffer : String
  breakpoints_enabled : Bool
  breakpoints_list : List (Int × Nat)

/-- Errors of the memory bus and of the embedding.  `busRead`/`busWrite`
are the "memory access violation" exceptions of getitem/setitem,
`invalidWrite` is the setitem assertion on the value, `attrMissing` models
a Python AttributeError (accessing `self.sound` when it was never
created), and `fuelOut` is an artifact of the embedding marking that the
fuel bound of the unbounded `while` loop in `tick` was exhausted. -/
inductive MBErr
  | busRead (i : Nat)
  | busWrite (i : Nat)
  | invalidWrite (i v : Nat)
  | attrMissing
  | fuelOut
deriving DecidableEq

/-- True exactly for the two memory-access-violation errors. -/
def MBErr.isBusErr : MBErr → Bool
  | .busRead _ => true
  | .busWrite _ => true
  | _ => false

/-- Modelled from the spec: the behaviour of the external collaborators
behind the interfaces mb.py calls.  Every theorem quantifies over this
bundle, so the results hold for any peripheral behaviour. -/
structure Ops where
  cpuTick : Motherboard → Motherboard × Int
  timerTick : Timer → Int → Timer × Bool
  timerCTI : Timer → Int
  timerReset : Timer → Timer
  lcdTick : LCD → Int → LCD × Nat
  lcdCTI : LCD → Int
  rendererTick : Renderer → LCD → Nat → Renderer
  renderScreen : Renderer → LCD → Renderer
  cartGet : Cartridge → Nat → Nat
  cartSet : Cartridge → Nat → Nat → Cartridge
  interactionPull : Interaction → Nat → Interaction × Nat
  palSet : PaletteRegister → Nat → PaletteRegister × Bool
  lcdcSet : LCDCRegister → Nat → LCDCRegister
  soundGet : Sound → Nat → Nat
  soundSet : Sound → Nat → Nat → Sound
  cpuSave : CPU → List Nat
  cpuLoad : CPU → List Nat → Nat → Option (CPU × List Nat)
  lcdSave : LCD → List Nat
  lcdLoad : LCD → List Nat → Nat → Option (LCD × List Nat)
  soundSave : Sound → List Nat
  soundLoad : Sound → List Nat → Nat → Option (Sound × List Nat)
  rendererSave : Renderer → List Nat
  rendererLoad : Renderer → List Nat → Nat → Option (Renderer × List Nat)
  ramSave : RAM → List Nat
  ramLoad : RAM → List Nat → Nat → Option (RAM × List Nat)
  timerSave : Timer → List Nat
  timerLoad : Timer → List Nat → Nat → Option (Timer × List Nat)
  cartSave : Cartridge → List Nat
  cartLoad : Cartridge → List Nat → Nat → Option (Cartridge × List Nat)

/-- The memory bus, read side (mb.py `Motherboard.getitem`, lines
179-249): a cascade of half-open address intervals; the echo region
recurses 0x2000 lower; an address at or above 0x10000 raises. -/
def getitem (ops : Ops) (s : Motherboard) (i : Nat) : Except MBErr Nat :=
  if i < 0x4000 then -- 16kB ROM bank #0
    if i ≤ 0xFF ∧ s.bootrom_enabled = true then
      Except.ok (s.bootrom.getitem i)
    else
      Except.ok (ops.cartGet s.cartridge i)
  else if i < 0x8000 then -- 16kB switchable ROM bank
    Except.ok (ops.cartGet s.cartridge i)
  else if i < 0xA000 then -- 8kB Video RAM
    Except.ok (s.lcd.VRAM (i - 0x8000))
  else if i < 0xC000 then -- 8kB switchable RAM bank
    Except.ok (ops.cartGet s.cartridge i)
  else if h5 : i < 0xE000 then -- 8kB Internal RAM
    Except.ok (s.ram.internal_ram0 (i - 0xC000))
  else if h6 : i < 0xFE00 then -- Echo of 8kB Internal RAM
    getitem ops s (i - 0x2000)
  else if i < 0xFEA0 then -- Sprite Attribute Memory (OAM)
    Except.ok (s.lcd.OAM (i - 0xFE00))
  else if i < 0xFF00 then -- Empty but unusable for I/O
    Except.ok (s.ram.non_io_internal_ram0 (i - 0xFEA0))
  else if i < 0xFF4C then -- I/O ports
    if i = 0xFF04 then Except.ok s.timer.DIV
    else if i = 0xFF05 then Except.ok s.timer.TIMA
    else if i = 0xFF06 then Except.ok s.timer.TMA
    else if i = 0xFF07 then Except.ok s.timer.TAC
    else if i = 0xFF0F then Except.ok s.cpu.interrupts_flag_register
    else if 0xFF10 ≤ i ∧ i < 0xFF40 then
      if s.sound_enabled = true then
        match s.sound with
        | some sd => Except.ok (ops.soundGet sd (i - 0xFF10))
        | none => Except.error MBErr.attrMissing
      else Except.ok 0
    else if i = 0xFF40 then Except.ok s.lcd.LCDC.value
    else if i = 0xFF41 then Except.ok s.lcd.STAT
    else if i = 0xFF42 then Except.ok s.lcd.SCY
    else if i = 0xFF43 then Except.ok s.lcd.SCX
    else if i = 0xFF44 then Except.ok s.lcd.LY
    else if i = 0xFF45 then Except.ok s.lcd.LYC
    else if i = 0xFF46 then Except.ok 0x00 -- DMA
    else if i = 0xFF47 then Except.ok s.lcd.BGP.value
    else if i = 0xFF48 then Except.ok s.lcd.OBP0.value
    else if i = 0xFF49 then Except.ok s.lcd.OBP1.value
    else if i = 0xFF4A then Except.ok s.lcd.WY
    else if i = 0xFF4B then Except.ok s.lcd.WX
    else Except.ok (s.ram.io_ports (i - 0xFF00))
  else if i < 0xFF80 then -- Empty but unusable for I/O
    Except.ok (s.ram.non_io_internal_ram1 (i - 0xFF4C))
  else if i < 0xFFFF then -- Internal RAM
    Except.ok (s.ram.internal_ram1 (i - 0xFF80))
  else if i = 0xFFFF then -- Interrupt Enable Register
    Except.ok s.cpu.interrupts_enabled_register
  else
    Except.error (MBErr.busRead i)
termination_by i
decreasing_by omega

/-!
The memory bus, write side, and the DMA loop (mb.py
`Motherboard.setitem`, lines 251-332, and `Motherboard.transfer_DMA`,
lines 334-340).  The two recurse into each other: setitem at 0xFF46
starts the DMA loop, and the loop writes each OAM byte through setitem,
reading the source through the normal getitem path.
-/
mutual

/-- The memory bus, write side (mb.py `Motherboard.setitem`): asserts the
value is a byte, then dispatches on the same half-open intervals as the
read side; echo writes recurse 0x2000 lower, a write to 0xFF46 starts the
DMA loop. -/
def setitem (ops : Ops) (s : Motherboard) (i : Nat) (v : Nat) : Except MBErr Motherboard :=
  if 0x100 ≤ v then -- assert 0 <= value < 0x100
    Except.error (MBErr.invalidWrite i v)
  else if i < 0x4000 then -- 16kB ROM bank #0; MBC command
    Except.ok { s with cartridge := ops.cartSet s.cartridge i v }
  else if i < 0x8000 then -- 16kB switchable ROM bank; MBC command
    Except.ok { s with cartridge := ops.cartSet s.cartridge i v }
  else if i < 0xA000 then -- 8kB Video RAM
    if i < 0x9800 then -- tile data: mark the tile dirty
      Except.ok { s with
        lcd := { s.lcd with
          VRAM := fun j => if j = i - 0x8000 then v else s.lcd.VRAM j },
        renderer := { s.renderer with
          tiles_changed := s.renderer.tiles_changed.insert (i &&& 0xFFF0) } }
    else
      Except.ok { s with
        lcd := { s.lcd with
          VRAM := fun j => if j = i - 0x8000 then v else s.lcd.VRAM j } }
  else if i < 0xC000 then -- 8kB switchable RAM bank
    Except.ok { s with cartridge := ops.cartSet s.cartridge i v }
  else if h5 : i < 0xE000 then -- 8kB Internal RAM
    Except.ok { s with
      ram := { s.ram with
        internal_ram0 := fun j => if j = i - 0xC000 then v else s.ram.internal_ram0 j } }
  else if h6 : i < 0xFE00 then -- Echo: redirect to internal RAM
    setitem ops s (i - 0x2000) v
  else if i < 0xFEA0 then -- Sprite Attribute Memory (OAM)
    Except.ok { s with
      lcd := { s.lcd with
        OAM := fun j => if j = i - 0xFE00 then v else s.lcd.OAM j } }
  else if i < 0xFF00 then -- Empty but unusable for I/O
    Except.ok { s with
      ram := { s.ram with
        non_io_internal_ram0 := fun j => if j = i - 0xFEA0 then v else s.ram.non_io_internal_ram0 j } }
  else if i < 0xFF4C then -- I/O ports
    if i = 0xFF00 then
      Except.ok { s with
        interaction := (ops.interactionPull s.interaction v).1,
        ram := { s.ram with
          io_ports := fun j =>
            if j = i - 0xFF00 then (ops.interactionPull s.interaction v).2
            else s.ram.io_ports j } }
    else if i = 0xFF01 then
      Except.ok { s with
        serialbuffer := s.serialbuffer.push (Char.ofNat v),
        ram := { s.ram with
          io_ports := fun j => if j = i - 0xFF00 then v else s.ram.io_ports j } }
    else if i = 0xFF04 then
      Except.ok { s with timer := ops.timerReset s.timer }
    else if i = 0xFF05 then
      Except.ok { s with timer := { s.timer with TIMA := v } }
    else if i = 0xFF06 then
      Except.ok { s with timer := { s.timer with TMA := v } }
    else if i = 0xFF07 then
      Except.ok { s with timer := { s.timer with TAC := v &&& 0b111 } }
    else if i = 0xFF0F then
      Except.ok { s with cpu := { s.cpu with interrupts_flag_register := v } }
    else if 0xFF10 ≤ i ∧ i < 0xFF40 then
      if s.sound_enabled = true then
        match s.sound with
        | some sd => Except.ok { s with sound := some (ops.soundSet sd (i - 0xFF10) v) }
        | none => Except.error MBErr.attrMissing
      else Except.ok s
    else if i = 0xFF40 then
      Except.ok { s with lcd := { s.lcd with LCDC := ops.lcdcSet s.lcd.LCDC v } }
    else if i = 0xFF41 then
      Except.ok { s with lcd := { s.lcd with STAT := v } }
    else if i = 0xFF42 then
      Except.ok { s with lcd := { s.lcd with SCY := v } }
    else if i = 0xFF43 then
      Except.ok { s with lcd := { s.lcd with SCX := v } }
    else if i = 0xFF44 then
      Except.ok { s with lcd := { s.lcd with LY := v } }
    else if i = 0xFF45 then
      Except.ok { s with lcd := { s.lcd with LYC := v } }
    else if h46 : i = 0xFF46 then -- DMA transfer (transfer_DMA)
      dmaLoop ops s (v * 0x100) 0
    else if i = 0xFF47 then
      Except.ok { s with
        lcd := { s.lcd with BGP := (ops.palSet s.lcd.BGP v).1 },
        renderer := { s.renderer with
          clearcache := s.renderer.clearcache || (ops.palSet s.lcd.BGP v).2 } }
    else if i = 0xFF48 then
      Except.ok { s with
        lcd := { s.lcd with OBP0 := (ops.palSet s.lcd.OBP0 v).1 },
        renderer := { s.renderer with
          clearcache := s.renderer.clearcache || (ops.palSet s.lcd.OBP0 v).2 } }
    else if i = 0xFF49 then
      Except.ok { s with
        lcd := { s.lcd with OBP1 := (ops.palSet s.lcd.OBP1 v).1 },
        renderer := { s.renderer with
          clearcache := s.renderer.clearcache || (ops.palSet s.lcd.OBP1 v).2 } }
    else if i = 0xFF4A then
      Except.ok { s with lcd := { s.lcd with WY := v } }
    else if i = 0xFF4B then
      Except.ok { s with lcd := { s.lcd with WX := v } }
    else
      Except.ok { s with
        ram := { s.ram with
          io_ports := fun j => if j = i - 0xFF00 then v else s.ram.io_ports j } }
  else if i < 0xFF80 then -- Empty but unusable for I/O; 0xFF50 latch
    if s.bootrom_enabled = true ∧ i = 0xFF50 ∧ v = 1 then
      Except.ok { s with
        bootrom_enabled := false,
        ram := { s.ram with
          non_io_internal_ram1 := fun j => if j = i - 0xFF4C then v else s.ram.non_io_internal_ram1 j } }
    else
      Except.ok { s with
        ram := { s.ram with
          non_io_internal_ram1 := fun j => if j = i - 0xFF4C then v else s.ram.non_io_internal_ram1 j } }
  else if i < 0xFFFF then -- Internal RAM
    Except.ok { s with
      ram := { s.ram with
        internal_ram1 := fun j => if j = i - 0xFF80 then v else s.ram.internal_ram1 j } }
  else if i = 0xFFFF then -- Interrupt Enable Register
    Except.ok { s with cpu := { s.cpu with interrupts_enabled_register := v } }
  else
    Except.error (MBErr.busWrite i)
termination_by 0x10000 * i

/-- The `for n in range(0xA0)` loop of mb.py `Motherboard.transfer_DMA`
with `n` ascending: each step reads `n + offset` through the bus and
writes the byte to OAM at `0xFE00 + n` through the bus. -/
def dmaLoop (ops : Ops) (s : Motherboard) (offset : Nat) (n : Nat) : Except MBErr Motherboard :=
  if h : n < 0xA0 then
    match getitem ops s (n + offset) with
    | Except.error e => Except.error e
    | Except.ok value =>
      match setitem ops s (0xFE00 + n) value with
      | Except.error e => Except.error e
      | Except.ok s2 => dmaLoop ops s2 offset (n + 1)
  else
    Except.ok s
termination_by 0x10000 * 0xFF45 + (0xA1 - n)

end

/-- DMA oam transfer (mb.py `Motherboard.transfer_DMA`): copies 160 bytes
from `src * 0x100` into OAM through the normal bus read/write paths. -/
def transfer_DMA (ops : Ops) (s : Motherboard) (src : Nat) : Except MBErr Motherboard :=
  dmaLoop ops s (src * 0x100) 0

/-- Breakpoint predicate (mb.py `Motherboard.breakpoint_reached`, lines
116-126): scans `breakpoints_list` for a pair `(bank, pc)` matching the
CPU's current PC, disambiguated by the address window. -/
def breakpoint_reached (s : Motherboard) : Bool :=
  s.breakpoints_list.any fun bp =>
    decide (s.cpu.PC = bp.2) &&
      ((decide (bp.2 < 0x4000) && decide (bp.1 = 0) && !s.bootrom_enabled) ||
       (decide (0x4000 ≤ bp.2) && decide (bp.2 < 0x8000) &&
         decide (s.cartridge.rombank_selected = bp.1)) ||
       (decide (0xA000 ≤ bp.2) && decide (bp.2 < 0xC000) &&
         decide (s.cartridge.rambank_selected = bp.1)) ||
       (decide (bp.2 < 0x100) && decide (bp.1 = -1) && s.bootrom_enabled))

/-- Outcome of one iteration of the tick loop: a breakpoint hit (returning
the current remaining budget), an error, or continuation with the
post-iteration state and remaining budget. -/
inductive StepRes
  | bp (s : Motherboard) (remaining : Int)
  | err (e : MBErr)
  | cont (s : Motherboard) (remaining : Int)

/-- HALT fast-forward (mb.py lines 135-148): when the CPU reported the
HALT sentinel -1, the elapsed cycles become the minimum of the remaining
budget and the timer's and LCD's cycles to their next interrupt, taking
the minima in source order. -/
def tickHaltCycles (ops : Ops) (s1 : Motherboard) (c0 cycles_period : Int) : Int :=
  if c0 = -1 then min (ops.lcdCTI s1.lcd) (min (ops.timerCTI s1.timer) cycles_period)
  else c0

/-- HALT profiling (mb.py lines 150-152): with profiling on, the HALT
opcode's hitrate entry 0x76 is incremented by elapsed // 4 (Python floor
division). -/
def tickProfile (s1 : Motherboard) (c0 cycles : Int) : Motherboard :=
  if c0 = -1 ∧ s1.cpu.profiling = true then
    { s1 with cpu := { s1.cpu with
        hitrate := fun j =>
          if j = 0x76 then s1.cpu.hitrate 0x76 + Int.fdiv cycles 4
          else s1.cpu.hitrate j } }
  else s1

/-- Sound clock advance (mb.py lines 155-156): `self.sound.clock += cycles`
when sound is enabled; accessing `self.sound` requires the attribute. -/
def tickSound (s2 : Motherboard) (cycles : Int) : Except MBErr Motherboard :=
  if s2.sound_enabled = true then
    match s2.sound with
    | none => Except.error MBErr.attrMissing
    | some sd => Except.ok { s2 with sound := some { sd with clock := sd.clock + cycles } }
  else Except.ok s2

/-- Timer advance (mb.py lines 158-159): tick the timer; on overflow OR
the Timer bit into the CPU's interrupt flag register. -/
def tickTimer (ops : Ops) (s3 : Motherboard) (cycles : Int) : Motherboard :=
  let s4 := { s3 with timer := (ops.timerTick s3.timer cycles).1 }
  if (ops.timerTick s3.timer cycles).2 = true then
    { s4 with cpu := s4.cpu.set_interruptflag INTR_TIMER }
  else s4

/-- LCD and renderer advance (mb.py lines 161-164): tick the LCD, feed the
renderer the post-tick LCD together with the LCD's interrupt mask, and OR
a nonzero mask into the CPU's interrupt flag register. -/
def tickLCD (ops : Ops) (s5 : Motherboard) (cycles : Int) : Motherboard :=
  let lcd_interrupt := (ops.lcdTick s5.lcd cycles).2
  let s6 := { s5 with lcd := (ops.lcdTick s5.lcd cycles).1 }
  let s7 := { s6 with renderer := ops.rendererTick s6.renderer s6.lcd lcd_interrupt }
  if lcd_interrupt ≠ 0 then
    { s7 with cpu := s7.cpu.set_interruptflag lcd_interrupt }
  else s7

/-- One iteration of the `while cycles_period > 0` loop of mb.py
`Motherboard.tick` (lines 129-168): one CPU instruction, the breakpoint
check (which on a hit returns the current remaining budget at once), the
HALT fast-forward with profiling, the sound clock, then timer, LCD and
renderer advancement, ending with the budget decreased by the elapsed
cycles. -/
def tickStep (ops : Ops) (s : Motherboard) (cycles_period : Int) : StepRes :=
  if ((ops.cpuTick s).1.breakpoints_enabled &&
      breakpoint_reached (ops.cpuTick s).1) = true then
    StepRes.bp (ops.cpuTick s).1 cycles_period
  else
    match tickSound
        (tickProfile (ops.cpuTick s).1 (ops.cpuTick s).2
          (tickHaltCycles ops (ops.cpuTick s).1 (ops.cpuTick s).2 cycles_period))
        (tickHaltCycles ops (ops.cpuTick s).1 (ops.cpuTick s).2 cycles_period) with
    | Except.error e => StepRes.err e
    | Except.ok s3 =>
      StepRes.cont
        (tickLCD ops
          (tickTimer ops s3 (tickHaltCycles ops (ops.cpuTick s).1 (ops.cpuTick s).2 cycles_period))
          (tickHaltCycles ops (ops.cpuTick s).1 (ops.cpuTick s).2 cycles_period))
        (cycles_period - tickHaltCycles ops (ops.cpuTick s).1 (ops.cpuTick s).2 cycles_period)

/-- Normal loop exit of mb.py `Motherboard.tick` (lines 170-174): if sound
is enabled its sync hook is invoked (modelled from the spec as a
host-facing flush that does not alter emulation state, though it still
requires the `sound` attribute to exist), and the unconsumed remainder is
returned. -/
def tickExit (s : Motherboard) (cycles_period : Int) :
    Except MBErr (Motherboard × Int) :=
  if s.sound_enabled = true then
    match s.sound with
    | none => Except.error MBErr.attrMissing
    | some _ => Except.ok (s, cycles_period)
  else Except.ok (s, cycles_period)

/-- The `while cycles_period > 0` loop of mb.py `Motherboard.tick`, driven
by explicit fuel (the loop has no structural bound; running out of fuel is
the embedding's marker for a not-yet-terminated loop). -/
def tickLoop (ops : Ops) : Nat → Motherboard → Int → Except MBErr (Motherboard × Int)
  | 0, s, cycles_period =>
    if 0 < cycles_period then Except.error MBErr.fuelOut
    else tickExit s cycles_period
  | fuel + 1, s, cycles_period =>
    if 0 < cycles_period then
      match tickStep ops s cycles_period with
      | StepRes.bp s1 r => Except.ok (s1, r)
      | StepRes.err e => Except.error e
      | StepRes.cont s2 r => tickLoop ops fuel s2 r
    else tickExit s cycles_period

/-- mb.py `Motherboard.tick` (lines 128-174). -/
def tick (ops : Ops) (fuel : Nat) (s : Motherboard) (cycles_period : Int) :
    Except MBErr (Motherboard × Int) :=
  tickLoop ops fuel s cycles_period

/-- mb.py `Motherboard.add_breakpoint`. -/
def add_breakpoint (s : Motherboard) (bank : Int) (addr : Nat) : Motherboard :=
  { s with breakpoints_list := s.breakpoints_list ++ [(bank, addr)] }

/-- mb.py `Motherboard.remove_breakpoint`. -/
def remove_breakpoint (s : Motherboard) (index : Nat) : Motherboard :=
  { s with breakpoints_list := s.breakpoints_list.eraseIdx index }

/-- mb.py `Motherboard.getserial`: drains the serial buffer. -/
def getserial (s : Motherboard) : String × Motherboard :=
  (s.serialbuffer, { s with serialbuffer := "" })

/-- mb.py `Motherboard.save_state` (lines 64-79): writes STATE_VERSION,
the boot-ROM flag, then the CPU, LCD, (sound if enabled), renderer, RAM,
timer and cartridge blocks, in that order.  Accessing `self.sound`
requires the attribute to exist. -/
def save_state (ops : Ops) (s : Motherboard) : Option (List Nat) :=
  let tail := ops.rendererSave s.renderer ++ ops.ramSave s.ram ++
    ops.timerSave s.timer ++ ops.cartSave s.cartridge
  let head := STATE_VERSION :: s.bootrom_enabled.toNat ::
    (ops.cpuSave s.cpu ++ ops.lcdSave s.lcd)
  if s.sound_enabled = true then
    match s.sound with
    | none => none
    | some sd => some (head ++ ops.soundSave sd ++ tail)
  else
    some (head ++ tail)

/-- Reads one value from the stream. -/
def readValue (f : List Nat) : Option (Nat × List Nat) :=
  match f with
  | [] => none
  | x :: f' => some (x, f')

/-- mb.py `Motherboard.load_state` (lines 81-110): reads the version (for
v < 2 the first byte is the boot-ROM flag itself), then the component
blocks with the version-dependent branching of the source; afterwards the
renderer cache is cleared and the screen re-rendered.  The sound block is
read whenever the version is at least 6, which requires the `sound`
attribute to exist. -/
def load_state (ops : Ops) (s : Motherboard) (f : List Nat) : Option Motherboard := do
  let (state_version, f) ← readValue f
  let (brFlag, f) ←
    if 2 ≤ state_version then do
      -- From version 2 and above, the first byte is the version number
      let (b, f) ← readValue f
      pure (decide (b ≠ 0), f)
    else
      -- HACK: the byte was not a state version but the bootrom flag
      pure (decide (state_version ≠ 0), f)
  let (cpu1, f) ← ops.cpuLoad s.cpu f state_version
  let (lcd1, f) ← ops.lcdLoad s.lcd f state_version
  let (sound1, f) ←
    if 6 ≤ state_version then do
      let sd ← s.sound
      let (sd1, f) ← ops.soundLoad sd f state_version
      pure (some sd1, f)
    else pure (s.sound, f)
  let (rend1, f) ←
    if 2 ≤ state_version then ops.rendererLoad s.renderer f state_version
    else pure (s.renderer, f)
  let (ram1, f) ← ops.ramLoad s.ram f state_version
  let (cpu2, f) ←
    if state_version < 5 then do
      -- Interrupt register moved from RAM to CPU
      let (ie, f) ← readValue f
      pure ({ cpu1 with interrupts_enabled_register := ie }, f)
    else pure (cpu1, f)
  let (tim1, f) ←
    if 5 ≤ state_version then ops.timerLoad s.timer f state_version
    else pure (s.timer, f)
  let (cart1, _f) ← ops.cartLoad s.cartridge f state_version
  let s1 : Motherboard :=
    { s with
      bootrom_enabled := brFlag, cpu := cpu2, lcd := lcd1, sound := sound1,
      renderer := rend1, ram := ram1, timer := tim1, cartridge := cart1 }
  let rend2 := { s1.renderer with clearcache := true }
  pure { s1 with renderer := ops.renderScreen rend2 s1.lcd }

/-- mb.py `Motherboard.__init__` (lines 19-41): peripheral construction is
external, so the freshly constructed peripheral states are parameters;
the coordinator's own fields are initialized as in the source: the sound
object exists only when sound is enabled, the boot ROM starts enabled,
the serial buffer empty, and breakpoints are pre-populated. -/
def Motherboard.init (t0 : Timer) (ia0 : Interaction) (cart0 : Cartridge)
    (boot0 : BootROM) (ram0 : RAM) (cpu0 : CPU) (lcd0 : LCD) (rend0 : Renderer)
    (snd0 : Sound) (sound_enabled : Bool) (profiling : Bool) : Motherboard :=
  { timer := t0
    interaction := ia0
    cartridge := cart0
    bootrom := boot0
    ram := ram0
    cpu := { cpu0 with profiling := profiling }
    lcd := lcd0
    renderer := rend0
    sound_enabled := sound_enabled
    sound := if sound_enabled then some snd0 else none
    bootrom_enabled := true
    serialbuffer := ""
    breakpoints_enabled := true
    breakpoints_list := [(0, 0x0048), (0, 0x0050), (0, 0x0040)] }

/-! Region lemmas for the read side of the bus. -/

lemma getitem_boot (ops : Ops) (s : Motherboard) (i : Nat)
    (h1 : i ≤ 0xFF) (h2 : s.bootrom_enabled = true) :
    getitem ops s i = Except.ok (s.bootrom.getitem i) := by
  unfold getitem
  rw [if_pos (by omega : i < 0x4000), if_pos ⟨h1, h2⟩]

lemma getitem_rom0 (ops : Ops) (s : Motherboard) (i : Nat)
    (h1 : i < 0x4000) (h2 : ¬(i ≤ 0xFF ∧ s.bootrom_enabled = true)) :
    getitem ops s i = Except.ok (ops.cartGet s.cartridge i) := by
  unfold getitem
  rw [if_pos h1, if_neg h2]

lemma getitem_romN (ops : Ops) (s : Motherboard) (i : Nat)
    (h1 : 0x4000 ≤ i) (h2 : i < 0x8000) :
    getitem ops s i = Except.ok (ops.cartGet s.cartridge i) := by
  unfold getitem
  rw [if_neg (by omega), if_pos h2]

lemma getitem_vram (ops : Ops) (s : Motherboard) (i : Nat)
    (h1 : 0x8000 ≤ i) (h2 : i < 0xA000) :
    getitem ops s i = Except.ok (s.lcd.VRAM (i - 0x8000)) := by
  unfold getitem
  rw [if_neg (by omega), if_neg (by omega), if_pos h2]

lemma getitem_cartram (ops : Ops) (s : Motherboard) (i : Nat)
    (h1 : 0xA000 ≤ i) (h2 : i < 0xC000) :
    getitem ops s i = Except.ok (ops.cartGet s.cartridge i) := by
  unfold getitem
  rw [if_neg (by omega), if_neg (by omega), if_neg (by omega), if_pos h2]

lemma getitem_wram (ops : Ops) (s : Motherboard) (i : Nat)
    (h1 : 0xC000 ≤ i) (h2 : i < 0xE000) :
    getitem ops s i = Except.ok (s.ram.internal_ram0 (i - 0xC000)) := by
  unfold getitem
  rw [if_neg (by omega), if_neg (by omega), if_neg (by omega), if_neg (by omega),
    dif_pos h2]

lemma getitem_echo (ops : Ops) (s : Motherboard) (i : Nat)
    (h1 : 0xE000 ≤ i) (h2 : i < 0xFE00) :
    getitem ops s i = getitem ops s (i - 0x2000) := by
  conv_lhs => unfold getitem
  rw [if_neg (by omega), if_neg (by omega), if_neg (by omega), if_neg (by omega),
    dif_neg (by omega), dif_pos h2]

lemma getitem_oam (ops : Ops) (s : Motherboard) (i : Nat)
    (h1 : 0xFE00 ≤ i) (h2 : i < 0xFEA0) :
    getitem ops s i = Except.ok (s.lcd.OAM (i - 0xFE00)) := by
  unfold getitem
  rw [if_neg (by omega), if_neg (by omega), if_neg (by omega), if_neg (by omega),
    dif_neg (by omega), dif_neg (by omega), if_pos h2]

lemma getitem_nonio0 (ops : Ops) (s : Motherboard) (i : Nat)
    (h1 : 0xFEA0 ≤ i) (h2 : i < 0xFF00) :
    getitem ops s i = Except.ok (s.ram.non_io_internal_ram0 (i - 0xFEA0)) := by
  unfold getitem
  rw [if_neg (by omega), if_neg (by omega), if_neg (by omega), if_neg (by omega),
    dif_neg (by omega), dif_neg (by omega), if_neg (by omega), if_pos h2]

lemma getitem_ff46 (ops : Ops) (s : Motherboard) :
    getitem ops s 0xFF46 = Except.ok 0 := by
  unfold getitem
  norm_num

/-! Region lemmas for the remaining read regions and the write side. -/

lemma getitem_nonio1 (ops : Ops) (s : Motherboard) (i : Nat)
    (h1 : 0xFF4C ≤ i) (h2 : i < 0xFF80) :
    getitem ops s i = Except.ok (s.ram.non_io_internal_ram1 (i - 0xFF4C)) := by
  unfold getitem
  rw [if_neg (by omega), if_neg (by omega), if_neg (by omega), if_neg (by omega),
    dif_neg (by omega), dif_neg (by omega), if_neg (by omega), if_neg (by omega),
    if_neg (by omega), if_pos h2]

lemma getitem_hram (ops : Ops) (s : Motherboard) (i : Nat)
    (h1 : 0xFF80 ≤ i) (h2 : i < 0xFFFF) :
    getitem ops s i = Except.ok (s.ram.internal_ram1 (i - 0xFF80)) := by
  unfold getitem
  rw [if_neg (by omega), if_neg (by omega), if_neg (by omega), if_neg (by omega),
    dif_neg (by omega), dif_neg (by omega), if_neg (by omega), if_neg (by omega),
    if_neg (by omega), if_neg (by omega), if_pos h2]

lemma getitem_ie (ops : Ops) (s : Motherboard) :
    getitem ops s 0xFFFF = Except.ok s.cpu.interrupts_enabled_register := by
  unfold getitem
  norm_num

/-- Every address below 0xE000 reads successfully (the sound region, the
only fallible read, lies above). -/
lemma getitem_lt_E000 (ops : Ops) (s : Motherboard) (i : Nat) (h : i < 0xE000) :
    ∃ v, getitem ops s i = Except.ok v := by
  by_cases h1 : i < 0x4000
  · by_cases h2 : i ≤ 0xFF ∧ s.bootrom_enabled = true
    · exact ⟨_, getitem_boot ops s i h2.1 h2.2⟩
    · exact ⟨_, getitem_rom0 ops s i h1 h2⟩
  · by_cases h2 : i < 0x8000
    · exact ⟨_, getitem_romN ops s i (by omega) h2⟩
    · by_cases h3 : i < 0xA000
      · exact ⟨_, getitem_vram ops s i (by omega) h3⟩
      · by_cases h4 : i < 0xC000
        · exact ⟨_, getitem_cartram ops s i (by omega) h4⟩
        · exact ⟨_, getitem_wram ops s i (by omega) h⟩

set_option maxHeartbeats 1000000 in
/-- A read of an I/O-region address fails only with the AttributeError of
a missing sound object. -/
lemma getitem_io_error (ops : Ops) (s : Motherboard) (i : Nat) (e : MBErr)
    (h1 : 0xFF00 ≤ i) (h2 : i < 0xFF4C)
    (he : getitem ops s i = Except.error e) : e = MBErr.attrMissing := by
  unfold getitem at he
  rw [if_neg (by omega), if_neg (by omega), if_neg (by omega), if_neg (by omega),
    dif_neg (by omega), dif_neg (by omega), if_neg (by omega), if_neg (by omega),
    if_pos h2] at he
  by_cases hs : 0xFF10 ≤ i ∧ i < 0xFF40
  · rw [if_neg (by omega), if_neg (by omega), if_neg (by omega), if_neg (by omega),
      if_neg (by omega), if_pos hs] at he
    split_ifs at he with hse
    split at he
    · cases he
    · injection he with h
      exact h.symm
  · interval_cases i <;> simp_all

/-- In-bounds reads never raise the memory-access-violation error: the
only possible failure below 0x10000 is the missing-sound AttributeError. -/
lemma getitem_inbounds_error (ops : Ops) (s : Motherboard) (i : Nat) (e : MBErr)
    (h : i < 0x10000) (he : getitem ops s i = Except.error e) :
    e = MBErr.attrMissing := by
  by_cases h1 : i < 0xE000
  · obtain ⟨v, hv⟩ := getitem_lt_E000 ops s i h1
    rw [hv] at he
    cases he
  · by_cases h2 : i < 0xFE00
    · rw [getitem_echo ops s i (by omega) h2] at he
      obtain ⟨v, hv⟩ := getitem_lt_E000 ops s (i - 0x2000) (by omega)
      rw [hv] at he
      cases he
    · by_cases h3 : i < 0xFEA0
      · rw [getitem_oam ops s i (by omega) h3] at he
        cases he
      · by_cases h4 : i < 0xFF00
        · rw [getitem_nonio0 ops s i (by omega) h4] at he
          cases he
        · by_cases h5 : i < 0xFF4C
          · exact getitem_io_error ops s i e (by omega) h5 he
          · by_cases h6 : i < 0xFF80
            · rw [getitem_nonio1 ops s i (by omega) h6] at he
              cases he
            · by_cases h7 : i < 0xFFFF
              · rw [getitem_hram ops s i (by omega) h7] at he
                cases he
              · have : i = 0xFFFF := by omega
                subst this
                rw [getitem_ie ops s] at he
                cases he

lemma setitem_invalid (ops : Ops) (s : Motherboard) (i v : Nat) (hv : 0x100 ≤ v) :
    setitem ops s i v = Except.error (MBErr.invalidWrite i v) := by
  unfold setitem
  rw [if_pos hv]

lemma setitem_rom (ops : Ops) (s : Motherboard) (i v : Nat)
    (hv : v < 0x100) (h2 : i < 0x8000) :
    setitem ops s i v = Except.ok { s with cartridge := ops.cartSet s.cartridge i v } := by
  unfold setitem
  by_cases h1 : i < 0x4000
  · rw [if_neg (by omega), if_pos h1]
  · rw [if_neg (by omega), if_neg h1, if_pos h2]

lemma setitem_vram (ops : Ops) (s : Motherboard) (i v : Nat)
    (hv : v < 0x100) (h1 : 0x8000 ≤ i) (h2 : i < 0xA000) :
    setitem ops s i v =
      (if i < 0x9800 then
        Except.ok { s with
          lcd := { s.lcd with
            VRAM := fun j => if j = i - 0x8000 then v else s.lcd.VRAM j },
          renderer := { s.renderer with
            tiles_changed := s.renderer.tiles_changed.insert (i &&& 0xFFF0) } }
      else
        Except.ok { s with
          lcd := { s.lcd with
            VRAM := fun j => if j = i - 0x8000 then v else s.lcd.VRAM j } }) := by
  unfold setitem
  rw [if_neg (by omega), if_neg (by omega), if_neg (by omega), if_pos h2]

lemma setitem_cartram (ops : Ops) (s : Motherboard) (i v : Nat)
    (hv : v < 0x100) (h1 : 0xA000 ≤ i) (h2 : i < 0xC000) :
    setitem ops s i v = Except.ok { s with cartridge := ops.cartSet s.cartridge i v } := by
  unfold setitem
  rw [if_neg (by omega), if_neg (by omega), if_neg (by omega), if_neg (by omega),
    if_pos h2]

lemma setitem_wram (ops : Ops) (s : Motherboard) (i v : Nat)
    (hv : v < 0x100) (h1 : 0xC000 ≤ i) (h2 : i < 0xE000) :
    setitem ops s i v = Except.ok { s with
      ram := { s.ram with
        internal_ram0 := fun j => if j = i - 0xC000 then v else s.ram.internal_ram0 j } } := by
  unfold setitem
  rw [if_neg (by omega), if_neg (by omega), if_neg (by omega), if_neg (by omega),
    if_neg (by omega), dif_pos h2]

lemma setitem_echo (ops : Ops) (s : Motherboard) (i v : Nat)
    (hv : v < 0x100) (h1 : 0xE000 ≤ i) (h2 : i < 0xFE00) :
    setitem ops s i v = setitem ops s (i - 0x2000) v := by
  conv_lhs => unfold setitem
  rw [if_neg (by omega), if_neg (by omega), if_neg (by omega), if_neg (by omega),
    if_neg (by omega), dif_neg (by omega), dif_pos h2]

lemma setitem_oam (ops : Ops) (s : Motherboard) (i v : Nat)
    (hv : v < 0x100) (h1 : 0xFE00 ≤ i) (h2 : i < 0xFEA0) :
    setitem ops s i v = Except.ok { s with
      lcd := { s.lcd with
        OAM := fun j => if j = i - 0xFE00 then v else s.lcd.OAM j } } := by
  unfold setitem
  rw [if_neg (by omega), if_neg (by omega), if_neg (by omega), if_neg (by omega),
    if_neg (by omega), dif_neg (by omega), dif_neg (by omega), if_pos h2]

lemma setitem_nonio0 (ops : Ops) (s : Motherboard) (i v : Nat)
    (hv : v < 0x100) (h1 : 0xFEA0 ≤ i) (h2 : i < 0xFF00) :
    setitem ops s i v = Except.ok { s with
      ram := { s.ram with
        non_io_internal_ram0 := fun j => if j = i - 0xFEA0 then v else s.ram.non_io_internal_ram0 j } } := by
  unfold setitem
  rw [if_neg (by omega), if_neg (by omega), if_neg (by omega), if_neg (by omega),
    if_neg (by omega), dif_neg (by omega), dif_neg (by omega), if_neg (by omega),
    if_pos h2]

lemma setitem_nonio1 (ops : Ops) (s : Motherboard) (i v : Nat)
    (hv : v < 0x100) (h1 : 0xFF4C ≤ i) (h2 : i < 0xFF80) :
    setitem ops s i v =
      (if s.bootrom_enabled = true ∧ i = 0xFF50 ∧ v = 1 then
        Except.ok { s with
          bootrom_enabled := false,
          ram := { s.ram with
            non_io_internal_ram1 := fun j => if j = i - 0xFF4C then v else s.ram.non_io_internal_ram1 j } }
      else
        Except.ok { s with
          ram := { s.ram with
            non_io_internal_ram1 := fun j => if j = i - 0xFF4C then v else s.ram.non_io_internal_ram1 j } }) := by
  unfold setitem
  rw [if_neg (by omega), if_neg (by omega), if_neg (by omega), if_neg (by omega),
    if_neg (by omega), dif_neg (by omega), dif_neg (by omega), if_neg (by omega),
    if_neg (by omega), if_neg (by omega), if_pos h2]

lemma setitem_hram (ops : Ops) (s : Motherboard) (i v : Nat)
    (hv : v < 0x100) (h1 : 0xFF80 ≤ i) (h2 : i < 0xFFFF) :
    setitem ops s i v = Except.ok { s with
      ram := { s.ram with
        internal_ram1 := fun j => if j = i - 0xFF80 then v else s.ram.internal_ram1 j } } := by
  unfold setitem
  rw [if_neg (by omega), if_neg (by omega), if_neg (by omega), if_neg (by omega),
    if_neg (by omega), dif_neg (by omega), dif_neg (by omega), if_neg (by omega),
    if_neg (by omega), if_neg (by omega), if_neg (by omega), if_pos h2]

lemma setitem_ie (ops : Ops) (s : Motherboard) (v : Nat) (hv : v < 0x100) :
    setitem ops s 0xFFFF v =
      Except.ok { s with cpu := { s.cpu with interrupts_enabled_register := v } } := by
  unfold setitem
  rw [if_neg (by omega)]
  norm_num

lemma setitem_hi (ops : Ops) (s : Motherboard) (i v : Nat)
    (hv : v < 0x100) (h1 : 0x10000 ≤ i) :
    setitem ops s i v = Except.error (MBErr.busWrite i) := by
  unfold setitem
  rw [if_neg (by omega), if_neg (by omega), if_neg (by omega), if_neg (by omega),
    if_neg (by omega), dif_neg (by omega), dif_neg (by omega), if_neg (by omega),
    if_neg (by omega), if_neg (by omega), if_neg (by omega), if_neg (by omega),
    if_neg (by omega)]

lemma setitem_ff00 (ops : Ops) (s : Motherboard) (v : Nat) (hv : v < 0x100) :
    setitem ops s 0xFF00 v = Except.ok { s with
      interaction := (ops.interactionPull s.interaction v).1,
      ram := { s.ram with
        io_ports := fun j =>
          if j = 0 then (ops.interactionPull s.interaction v).2
          else s.ram.io_ports j } } := by
  unfold setitem
  rw [if_neg (by omega)]
  norm_num

lemma setitem_ff01 (ops : Ops) (s : Motherboard) (v : Nat) (hv : v < 0x100) :
    setitem ops s 0xFF01 v = Except.ok { s with
      serialbuffer := s.serialbuffer.push (Char.ofNat v),
      ram := { s.ram with
        io_ports := fun j => if j = 1 then v else s.ram.io_ports j } } := by
  unfold setitem
  rw [if_neg (by omega)]
  norm_num

lemma setitem_ff04 (ops : Ops) (s : Motherboard) (v : Nat) (hv : v < 0x100) :
    setitem ops s 0xFF04 v = Except.ok { s with timer := ops.timerReset s.timer } := by
  unfold setitem
  rw [if_neg (by omega)]
  norm_num

lemma setitem_ff05 (ops : Ops) (s : Motherboard) (v : Nat) (hv : v < 0x100) :
    setitem ops s 0xFF05 v = Except.ok { s with timer := { s.timer with TIMA := v } } := by
  unfold setitem
  rw [if_neg (by omega)]
  norm_num

lemma setitem_ff06 (ops : Ops) (s : Motherboard) (v : Nat) (hv : v < 0x100) :
    setitem ops s 0xFF06 v = Except.ok { s with timer := { s.timer with TMA := v } } := by
  unfold setitem
  rw [if_neg (by omega)]
  norm_num

lemma setitem_ff07 (ops : Ops) (s : Motherboard) (v : Nat) (hv : v < 0x100) :
    setitem ops s 0xFF07 v =
      Except.ok { s with timer := { s.timer with TAC := v &&& 0b111 } } := by
  unfold setitem
  rw [if_neg (by omega)]
  norm_num

lemma setitem_ff0f (ops : Ops) (s : Motherboard) (v : Nat) (hv : v < 0x100) :
    setitem ops s 0xFF0F v =
      Except.ok { s with cpu := { s.cpu with interrupts_flag_register := v } } := by
  unfold setitem
  rw [if_neg (by omega)]
  norm_num

lemma setitem_sound (ops : Ops) (s : Motherboard) (i v : Nat)
    (hv : v < 0x100) (h1 : 0xFF10 ≤ i) (h2 : i < 0xFF40) :
    setitem ops s i v =
      (if s.sound_enabled = true then
        match s.sound with
        | some sd => Except.ok { s with sound := some (ops.soundSet sd (i - 0xFF10) v) }
        | none => Except.error MBErr.attrMissing
      else Except.ok s) := by
  unfold setitem
  rw [if_neg (by omega), if_neg (by omega), if_neg (by omega), if_neg (by omega),
    if_neg (by omega), dif_neg (by omega), dif_neg (by omega), if_neg (by omega),
    if_neg (by omega), if_pos (by omega : i < 0xFF4C), if_neg (by omega),
    if_neg (by omega), if_neg (by omega), if_neg (by omega), if_neg (by omega),
    if_neg (by omega), if_neg (by omega), if_pos ⟨h1, h2⟩]

lemma setitem_ff40 (ops : Ops) (s : Motherboard) (v : Nat) (hv : v < 0x100) :
    setitem ops s 0xFF40 v =
      Except.ok { s with lcd := { s.lcd with LCDC := ops.lcdcSet s.lcd.LCDC v } } := by
  unfold setitem
  rw [if_neg (by omega)]
  norm_num

lemma setitem_ff41 (ops : Ops) (s : Motherboard) (v : Nat) (hv : v < 0x100) :
    setitem ops s 0xFF41 v = Except.ok { s with lcd := { s.lcd with STAT := v } } := by
  unfold setitem
  rw [if_neg (by omega)]
  norm_num

lemma setitem_ff42 (ops : Ops) (s : Motherboard) (v : Nat) (hv : v < 0x100) :
    setitem ops s 0xFF42 v = Except.ok { s with lcd := { s.lcd with SCY := v } } := by
  unfold setitem
  rw [if_neg (by omega)]
  norm_num

lemma setitem_ff43 (ops : Ops) (s : Motherboard) (v : Nat) (hv : v < 0x100) :
    setitem ops s 0xFF43 v = Except.ok { s with lcd := { s.lcd with SCX := v } } := by
  unfold setitem
  rw [if_neg (by omega)]
  norm_num

lemma setitem_ff44 (ops : Ops) (s : Motherboard) (v : Nat) (hv : v < 0x100) :
    setitem ops s 0xFF44 v = Except.ok { s with lcd := { s.lcd with LY := v } } := by
  unfold setitem
  rw [if_neg (by omega)]
  norm_num

lemma setitem_ff45 (ops : Ops) (s : Motherboard) (v : Nat) (hv : v < 0x100) :
    setitem ops s 0xFF45 v = Except.ok { s with lcd := { s.lcd with LYC := v } } := by
  unfold setitem
  rw [if_neg (by omega)]
  norm_num

lemma setitem_ff46 (ops : Ops) (s : Motherboard) (v : Nat) (hv : v < 0x100) :
    setitem ops s 0xFF46 v = dmaLoop ops s (v * 0x100) 0 := by
  unfold setitem
  rw [if_neg (by omega)]
  norm_num

lemma setitem_ff47 (ops : Ops) (s : Motherboard) (v : Nat) (hv : v < 0x100) :
    setitem ops s 0xFF47 v = Except.ok { s with
      lcd := { s.lcd with BGP := (ops.palSet s.lcd.BGP v).1 },
      renderer := { s.renderer with
        clearcache := s.renderer.clearcache || (ops.palSet s.lcd.BGP v).2 } } := by
  unfold setitem
  rw [if_neg (by omega)]
  norm_num

lemma setitem_ff48 (ops : Ops) (s : Motherboard) (v : Nat) (hv : v < 0x100) :
    setitem ops s 0xFF48 v = Except.ok { s with
      lcd := { s.lcd with OBP0 := (ops.palSet s.lcd.OBP0 v).1 },
      renderer := { s.renderer with
        clearcache := s.renderer.clearcache || (ops.palSet s.lcd.OBP0 v).2 } } := by
  unfold setitem
  rw [if_neg (by omega)]
  norm_num

lemma setitem_ff49 (ops : Ops) (s : Motherboard) (v : Nat) (hv : v < 0x100) :
    setitem ops s 0xFF49 v = Except.ok { s with
      lcd := { s.lcd with OBP1 := (ops.palSet s.lcd.OBP1 v).1 },
      renderer := { s.renderer with
        clearcache := s.renderer.clearcache || (ops.palSet s.lcd.OBP1 v).2 } } := by
  unfold setitem
  rw [if_neg (by omega)]
  norm_num

lemma setitem_ff4a (ops : Ops) (s : Motherboard) (v : Nat) (hv : v < 0x100) :
    setitem ops s 0xFF4A v = Except.ok { s with lcd := { s.lcd with WY := v } } := by
  unfold setitem
  rw [if_neg (by omega)]
  norm_num

lemma setitem_ff4b (ops : Ops) (s : Motherboard) (v : Nat) (hv : v < 0x100) :
    setitem ops s 0xFF4B v = Except.ok { s with lcd := { s.lcd with WX := v } } := by
  unfold setitem
  rw [if_neg (by omega)]
  norm_num

lemma setitem_io_other (ops : Ops) (s : Motherboard) (i v : Nat)
    (hv : v < 0x100) (h1 : 0xFF00 ≤ i) (h2 : i < 0xFF4C)
    (hn : i ≠ 0xFF00 ∧ i ≠ 0xFF01 ∧ i ≠ 0xFF04 ∧ i ≠ 0xFF05 ∧ i ≠ 0xFF06 ∧
      i ≠ 0xFF07 ∧ i ≠ 0xFF0F ∧ ¬(0xFF10 ≤ i ∧ i < 0xFF40) ∧ i ≠ 0xFF40 ∧
      i ≠ 0xFF41 ∧ i ≠ 0xFF42 ∧ i ≠ 0xFF43 ∧ i ≠ 0xFF44 ∧ i ≠ 0xFF45 ∧
      i ≠ 0xFF46 ∧ i ≠ 0xFF47 ∧ i ≠ 0xFF48 ∧ i ≠ 0xFF49 ∧ i ≠ 0xFF4A ∧
      i ≠ 0xFF4B) :
    setitem ops s i v = Except.ok { s with
      ram := { s.ram with
        io_ports := fun j => if j = i - 0xFF00 then v else s.ram.io_ports j } } := by
  obtain ⟨n00, n01, n04, n05, n06, n07, n0f, nsound, n40, n41, n42, n43, n44,
    n45, n46, n47, n48, n49, n4a, n4b⟩ := hn
  unfold setitem
  rw [if_neg (by omega), if_neg (by omega), if_neg (by omega), if_neg (by omega),
    if_neg (by omega), dif_neg (by omega), dif_neg (by omega), if_neg (by omega),
    if_neg (by omega), if_pos h2, if_neg n00, if_neg n01, if_neg n04, if_neg n05,
    if_neg n06, if_neg n07, if_neg n0f, if_neg nsound, if_neg n40, if_neg n41,
    if_neg n42, if_neg n43, if_neg n44, if_neg n45, dif_neg n46, if_neg n47,
    if_neg n48, if_neg n49, if_neg n4a, if_neg n4b]

/-- The DMA loop changes nothing but the OAM array: the target state is
the source state with only `lcd.OAM` replaced. -/
def OnlyOAMChanged (s s2 : Motherboard) : Prop :=
  s2 = { s with lcd := { s.lcd with OAM := s2.lcd.OAM } }

lemma onlyOAMChanged_self (s : Motherboard) : OnlyOAMChanged s s := by
  simp [OnlyOAMChanged]

lemma OnlyOAMChanged.trans {a b c : Motherboard}
    (h1 : OnlyOAMChanged a b) (h2 : OnlyOAMChanged b c) : OnlyOAMChanged a c := by
  unfold OnlyOAMChanged at *
  rw [h2, h1]

lemma dmaLoop_onlyOAM (ops : Ops) (offset : Nat) :
    ∀ k n s s2, 0xA0 - n ≤ k → dmaLoop ops s offset n = Except.ok s2 →
      OnlyOAMChanged s s2 := by
  intro k
  induction k with
  | zero =>
    intro n s s2 hk h
    unfold dmaLoop at h
    rw [dif_neg (by omega)] at h
    injection h with h
    subst h
    exact onlyOAMChanged_self s
  | succ k ih =>
    intro n s s2 hk h
    by_cases hn : n < 0xA0
    · unfold dmaLoop at h
      rw [dif_pos hn] at h
      split at h
      · cases h
      · rename_i gv heq
        split at h
        · cases h
        · rename_i smid heq2
          have hvlt : gv < 0x100 := by
            by_contra hge
            rw [setitem_invalid ops s (0xFE00 + n) gv (by omega)] at heq2
            cases heq2
          rw [setitem_oam ops s (0xFE00 + n) gv hvlt (by omega) (by omega)] at heq2
          injection heq2 with heq2
          have t1 : OnlyOAMChanged s smid := by
            rw [← heq2]
            simp [OnlyOAMChanged]
          exact t1.trans (ih (n + 1) smid s2 (by omega) h)
    · unfold dmaLoop at h
      rw [dif_neg hn] at h
      injection h with h
      subst h
      exact onlyOAMChanged_self s

/-- Any successful bus write either leaves `bootrom_enabled` unchanged or
turns it off, and never clears the renderer's `clearcache` flag. -/
lemma setitem_mono (ops : Ops) (s : Motherboard) (i v : Nat) (s2 : Motherboard)
    (h : setitem ops s i v = Except.ok s2) :
    (s2.bootrom_enabled = s.bootrom_enabled ∨ s2.bootrom_enabled = false) ∧
    (s.renderer.clearcache = true → s2.renderer.clearcache = true) := by
  by_cases hv : 0x100 ≤ v
  · rw [setitem_invalid ops s i v hv] at h
    cases h
  have hvlt : v < 0x100 := by omega
  by_cases h8 : i < 0x8000
  · rw [setitem_rom ops s i v hvlt h8] at h
    injection h with h
    subst h
    exact ⟨Or.inl rfl, fun hc => hc⟩
  by_cases hA : i < 0xA000
  · rw [setitem_vram ops s i v hvlt (by omega) hA] at h
    split_ifs at h <;> (injection h with h; subst h; exact ⟨Or.inl rfl, fun hc => hc⟩)
  by_cases hC : i < 0xC000
  · rw [setitem_cartram ops s i v hvlt (by omega) hC] at h
    injection h with h
    subst h
    exact ⟨Or.inl rfl, fun hc => hc⟩
  by_cases hE : i < 0xE000
  · rw [setitem_wram ops s i v hvlt (by omega) hE] at h
    injection h with h
    subst h
    exact ⟨Or.inl rfl, fun hc => hc⟩
  by_cases hFE : i < 0xFE00
  · rw [setitem_echo ops s i v hvlt (by omega) hFE,
      setitem_wram ops s (i - 0x2000) v hvlt (by omega) (by omega)] at h
    injection h with h
    subst h
    exact ⟨Or.inl rfl, fun hc => hc⟩
  by_cases hOAM : i < 0xFEA0
  · rw [setitem_oam ops s i v hvlt (by omega) hOAM] at h
    injection h with h
    subst h
    exact ⟨Or.inl rfl, fun hc => hc⟩
  by_cases hN0 : i < 0xFF00
  · rw [setitem_nonio0 ops s i v hvlt (by omega) hN0] at h
    injection h with h
    subst h
    exact ⟨Or.inl rfl, fun hc => hc⟩
  by_cases hIO : i < 0xFF4C
  · by_cases e00 : i = 0xFF00
    · subst e00
      rw [setitem_ff00 ops s v hvlt] at h
      injection h with h
      subst h
      exact ⟨Or.inl rfl, fun hc => hc⟩
    by_cases e01 : i = 0xFF01
    · subst e01
      rw [setitem_ff01 ops s v hvlt] at h
      injection h with h
      subst h
      exact ⟨Or.inl rfl, fun hc => hc⟩
    by_cases e04 : i = 0xFF04
    · subst e04
      rw [setitem_ff04 ops s v hvlt] at h
      injection h with h
      subst h
      exact ⟨Or.inl rfl, fun hc => hc⟩
    by_cases e05 : i = 0xFF05
    · subst e05
      rw [setitem_ff05 ops s v hvlt] at h
      injection h with h
      subst h
      exact ⟨Or.inl rfl, fun hc => hc⟩
    by_cases e06 : i = 0xFF06
    · subst e06
      rw [setitem_ff06 ops s v hvlt] at h
      injection h with h
      subst h
      exact ⟨Or.inl rfl, fun hc => hc⟩
    by_cases e07 : i = 0xFF07
    · subst e07
      rw [setitem_ff07 ops s v hvlt] at h
      injection h with h
      subst h
      exact ⟨Or.inl rfl, fun hc => hc⟩
    by_cases e0f : i = 0xFF0F
    · subst e0f
      rw [setitem_ff0f ops s v hvlt] at h
      injection h with h
      subst h
      exact ⟨Or.inl rfl, fun hc => hc⟩
    by_cases esnd : 0xFF10 ≤ i ∧ i < 0xFF40
    · rw [setitem_sound ops s i v hvlt esnd.1 esnd.2] at h
      split_ifs at h with hse
      · split at h
        · injection h with h
          subst h
          exact ⟨Or.inl rfl, fun hc => hc⟩
        · cases h
      · injection h with h
        subst h
        exact ⟨Or.inl rfl, fun hc => hc⟩
    by_cases e40 : i = 0xFF40
    · subst e40
      rw [setitem_ff40 ops s v hvlt] at h
      injection h with h
      subst h
      exact ⟨Or.inl rfl, fun hc => hc⟩
    by_cases e41 : i = 0xFF41
    · subst e41
      rw [setitem_ff41 ops s v hvlt] at h
      injection h with h
      subst h
      exact ⟨Or.inl rfl, fun hc => hc⟩
    by_cases e42 : i = 0xFF42
    · subst e42
      rw [setitem_ff42 ops s v hvlt] at h
      injection h with h
      subst h
      exact ⟨Or.inl rfl, fun hc => hc⟩
    by_cases e43 : i = 0xFF43
    · subst e43
      rw [setitem_ff43 ops s v hvlt] at h
      injection h with h
      subst h
      exact ⟨Or.inl rfl, fun hc => hc⟩
    by_cases e44 : i = 0xFF44
    · subst e44
      rw [setitem_ff44 ops s v hvlt] at h
      injection h with h
      subst h
      exact ⟨Or.inl rfl, fun hc => hc⟩
    by_cases e45 : i = 0xFF45
    · subst e45
      rw [setitem_ff45 ops s v hvlt] at h
      injection h with h
      subst h
      exact ⟨Or.inl rfl, fun hc => hc⟩
    by_cases e46 : i = 0xFF46
    · subst e46
      rw [setitem_ff46 ops s v hvlt] at h
      have hOnly := dmaLoop_onlyOAM ops (v * 0x100) 0xA1 0 s s2 (by omega) h
      constructor
      · left
        rw [hOnly]
      · intro hc
        rw [hOnly]
        exact hc
    by_cases e47 : i = 0xFF47
    · subst e47
      rw [setitem_ff47 ops s v hvlt] at h
      injection h with h
      subst h
      exact ⟨Or.inl rfl, fun hc => by simp [hc]⟩
    by_cases e48 : i = 0xFF48
    · subst e48
      rw [setitem_ff48 ops s v hvlt] at h
      injection h with h
      subst h
      exact ⟨Or.inl rfl, fun hc => by simp [hc]⟩
    by_cases e49 : i = 0xFF49
    · subst e49
      rw [setitem_ff49 ops s v hvlt] at h
      injection h with h
      subst h
      exact ⟨Or.inl rfl, fun hc => by simp [hc]⟩
    by_cases e4a : i = 0xFF4A
    · subst e4a
      rw [setitem_ff4a ops s v hvlt] at h
      injection h with h
      subst h
      exact ⟨Or.inl rfl, fun hc => hc⟩
    by_cases e4b : i = 0xFF4B
    · subst e4b
      rw [setitem_ff4b ops s v hvlt] at h
      injection h with h
      subst h
      exact ⟨Or.inl rfl, fun hc => hc⟩
    · rw [setitem_io_other ops s i v hvlt (by omega) hIO
        ⟨e00, e01, e04, e05, e06, e07, e0f, esnd, e40, e41, e42, e43, e44,
          e45, e46, e47, e48, e49, e4a, e4b⟩] at h
      injection h with h
      subst h
      exact ⟨Or.inl rfl, fun hc => hc⟩
  by_cases hN1 : i < 0xFF80
  · rw [setitem_nonio1 ops s i v hvlt (by omega) hN1] at h
    split_ifs at h
    · injection h with h
      subst h
      exact ⟨Or.inr rfl, fun hc => hc⟩
    · injection h with h
      subst h
      exact ⟨Or.inl rfl, fun hc => hc⟩
  by_cases hH : i < 0xFFFF
  · rw [setitem_hram ops s i v hvlt (by omega) hH] at h
    injection h with h
    subst h
    exact ⟨Or.inl rfl, fun hc => hc⟩
  by_cases hIE : i = 0xFFFF
  · subst hIE
    rw [setitem_ie ops s v hvlt] at h
    injection h with h
    subst h
    exact ⟨Or.inl rfl, fun hc => hc⟩
  · rw [setitem_hi ops s i v hvlt (by omega)] at h
    cases h


lemma tickProfile_bootrom (s1 : Motherboard) (c0 cycles : Int) :
    (tickProfile s1 c0 cycles).bootrom_enabled = s1.bootrom_enabled := by
  unfold tickProfile
  split_ifs <;> rfl

lemma tickProfile_sound (s1 : Motherboard) (c0 cycles : Int) :
    (tickProfile s1 c0 cycles).sound_enabled = s1.sound_enabled ∧
      (tickProfile s1 c0 cycles).sound = s1.sound := by
  unfold tickProfile
  split_ifs <;> exact ⟨rfl, rfl⟩

lemma tickProfile_cpu_on (s1 : Motherboard) (cycles : Int)
    (hp : s1.cpu.profiling = true) :
    (tickProfile s1 (-1) cycles).cpu.hitrate 0x76 =
      s1.cpu.hitrate 0x76 + Int.fdiv cycles 4 := by
  unfold tickProfile
  rw [if_pos ⟨rfl, hp⟩]
  simp

lemma tickProfile_cpu_off (s1 : Motherboard) (c0 cycles : Int)
    (hp : s1.cpu.profiling = false) :
    tickProfile s1 c0 cycles = s1 := by
  unfold tickProfile
  rw [if_neg]
  simp [hp]

lemma tickTimer_bootrom (ops : Ops) (s3 : Motherboard) (cycles : Int) :
    (tickTimer ops s3 cycles).bootrom_enabled = s3.bootrom_enabled := by
  unfold tickTimer
  split_ifs <;> rfl

lemma tickTimer_hitrate (ops : Ops) (s3 : Motherboard) (cycles : Int) :
    (tickTimer ops s3 cycles).cpu.hitrate = s3.cpu.hitrate := by
  unfold tickTimer CPU.set_interruptflag
  split_ifs <;> rfl

lemma tickLCD_bootrom (ops : Ops) (s5 : Motherboard) (cycles : Int) :
    (tickLCD ops s5 cycles).bootrom_enabled = s5.bootrom_enabled := by
  unfold tickLCD
  dsimp only
  split_ifs <;> rfl

lemma tickLCD_hitrate (ops : Ops) (s5 : Motherboard) (cycles : Int) :
    (tickLCD ops s5 cycles).cpu.hitrate = s5.cpu.hitrate := by
  unfold tickLCD CPU.set_interruptflag
  dsimp only
  split_ifs <;> rfl

lemma tickSound_ok (s2 : Motherboard) (cycles : Int) (s3 : Motherboard)
    (h : tickSound s2 cycles = Except.ok s3) :
    s3.bootrom_enabled = s2.bootrom_enabled ∧ s3.cpu = s2.cpu := by
  unfold tickSound at h
  split_ifs at h
  · split at h
    · cases h
    · injection h with h
      subst h
      exact ⟨rfl, rfl⟩
  · injection h with h
    subst h
    exact ⟨rfl, rfl⟩

lemma tickSound_total (s2 : Motherboard) (cycles : Int)
    (h : s2.sound_enabled = true → s2.sound.isSome = true) :
    ∃ s3, tickSound s2 cycles = Except.ok s3 ∧
      s3.bootrom_enabled = s2.bootrom_enabled ∧ s3.cpu = s2.cpu := by
  unfold tickSound
  by_cases hse : s2.sound_enabled = true
  · rw [if_pos hse]
    rcases hs : s2.sound with _ | sd
    · rw [hs] at h
      simp [hse] at h
    · exact ⟨_, rfl, rfl, rfl⟩
  · rw [if_neg hse]
    exact ⟨s2, rfl, rfl, rfl⟩

/-- A breakpoint outcome of one tick iteration returns exactly the budget
that was remaining when the iteration started, together with the
post-instruction state on which the breakpoint test succeeded. -/
lemma tickStep_inv_bp (ops : Ops) (s : Motherboard) (b : Int)
    (s2 : Motherboard) (r : Int) (h : tickStep ops s b = StepRes.bp s2 r) :
    r = b ∧ s2 = (ops.cpuTick s).1 ∧
      (s2.breakpoints_enabled && breakpoint_reached s2) = true := by
  unfold tickStep at h
  split at h
  · rename_i hguard
    injection h with h1 h2
    subst h1
    exact ⟨h2.symm, rfl, hguard⟩
  · split at h <;> cases h

/-- Any state produced by one tick iteration keeps the boot ROM disabled,
provided the CPU step does. -/
lemma tickStep_bootrom (ops : Ops) (s : Motherboard) (b : Int)
    (hcpu : ((ops.cpuTick s).1).bootrom_enabled = false)
    (s2 : Motherboard) (r : Int)
    (h : tickStep ops s b = StepRes.bp s2 r ∨ tickStep ops s b = StepRes.cont s2 r) :
    s2.bootrom_enabled = false := by
  rcases h with h | h <;>
  · unfold tickStep at h
    split at h
    · cases h <;> exact hcpu
    · split at h <;> cases h <;>
        (rw [tickLCD_bootrom, tickTimer_bootrom,
          (tickSound_ok _ _ _ (by assumption)).1, tickProfile_bootrom]
         exact hcpu)

lemma tickExit_ok (s : Motherboard) (b : Int) (s2 : Motherboard) (r : Int)
    (h : tickExit s b = Except.ok (s2, r)) : s2 = s ∧ r = b := by
  unfold tickExit at h
  split_ifs at h
  · split at h
    · cases h
    · injection h with h
      injection h with h1 h2
      exact ⟨h1.symm, h2.symm⟩
  · injection h with h
    injection h with h1 h2
    exact ⟨h1.symm, h2.symm⟩

/-- A positive remainder out of the tick loop can only come from the
breakpoint return: on any normal exit the remainder is not positive. -/
lemma tickLoop_pos_bp (ops : Ops) :
    ∀ fuel s b s2 r, tickLoop ops fuel s b = Except.ok (s2, r) → 0 < r →
      (s2.breakpoints_enabled && breakpoint_reached s2) = true := by
  intro fuel
  induction fuel with
  | zero =>
    intro s b s2 r h hr
    unfold tickLoop at h
    split at h
    · cases h
    · rename_i hb
      obtain ⟨rfl, rfl⟩ := tickExit_ok s b s2 r h
      omega
  | succ f ih =>
    intro s b s2 r h hr
    unfold tickLoop at h
    split at h
    · split at h
      · rename_i s1 r1 heq
        injection h with h
        injection h with h1 h2
        subst h1
        subst h2
        exact (tickStep_inv_bp ops s b s1 r1 heq).2.2
      · cases h
      · rename_i smid rmid heq
        exact ih smid rmid s2 r h hr
    · rename_i hb
      obtain ⟨rfl, rfl⟩ := tickExit_ok s b s2 r h
      omega

/-- The tick loop keeps the boot ROM disabled, provided every CPU step
does. -/
lemma tickLoop_bootrom (ops : Ops)
    (hcpu : ∀ t, t.bootrom_enabled = false → ((ops.cpuTick t).1).bootrom_enabled = false) :
    ∀ fuel s b s2 r, s.bootrom_enabled = false →
      tickLoop ops fuel s b = Except.ok (s2, r) → s2.bootrom_enabled = false := by
  intro fuel
  induction fuel with
  | zero =>
    intro s b s2 r hs h
    unfold tickLoop at h
    split at h
    · cases h
    · obtain ⟨rfl, rfl⟩ := tickExit_ok s b s2 r h
      exact hs
  | succ f ih =>
    intro s b s2 r hs h
    unfold tickLoop at h
    split at h
    · split at h
      · rename_i s1 r1 heq
        injection h with h
        injection h with h1 h2
        subst h1
        exact tickStep_bootrom ops s b (hcpu s hs) s1 r1 (Or.inl heq)
      · cases h
      · rename_i smid rmid heq
        exact ih smid rmid s2 r
          (tickStep_bootrom ops s b (hcpu s hs) smid rmid (Or.inr heq)) h
    · obtain ⟨rfl, rfl⟩ := tickExit_ok s b s2 r h
      exact hs

/-- Agreement on every field a bus read below 0xE000 can consult. -/
def LowAgree (s s0 : Motherboard) : Prop :=
  s.bootrom_enabled = s0.bootrom_enabled ∧ s.bootrom = s0.bootrom ∧
  s.cartridge = s0.cartridge ∧ s.lcd.VRAM = s0.lcd.VRAM ∧
  s.ram.internal_ram0 = s0.ram.internal_ram0

lemma getitem_low_congr (ops : Ops) (s s0 : Motherboard) (h : LowAgree s s0)
    (i : Nat) (hi : i < 0xE000) : getitem ops s i = getitem ops s0 i := by
  obtain ⟨hb, hboot, hcart, hvram, hram⟩ := h
  by_cases h1 : i < 0x4000
  · by_cases h2 : i ≤ 0xFF ∧ s.bootrom_enabled = true
    · rw [getitem_boot ops s i h2.1 h2.2,
        getitem_boot ops s0 i h2.1 (by rw [← hb]; exact h2.2), hboot]
    · rw [getitem_rom0 ops s i h1 h2,
        getitem_rom0 ops s0 i h1 (fun hc => h2 ⟨hc.1, by rw [hb]; exact hc.2⟩),
        hcart]
  · by_cases h2 : i < 0x8000
    · rw [getitem_romN ops s i (by omega) h2, getitem_romN ops s0 i (by omega) h2,
        hcart]
    · by_cases h3 : i < 0xA000
      · rw [getitem_vram ops s i (by omega) h3, getitem_vram ops s0 i (by omega) h3,
          hvram]
      · by_cases h4 : i < 0xC000
        · rw [getitem_cartram ops s i (by omega) h4,
            getitem_cartram ops s0 i (by omega) h4, hcart]
        · rw [getitem_wram ops s i (by omega) hi,
            getitem_wram ops s0 i (by omega) hi, hram]

lemma OnlyOAMChanged.lowAgree {s s2 : Motherboard} (h : OnlyOAMChanged s s2) :
    LowAgree s2 s := by
  rw [OnlyOAMChanged] at h
  rw [h]
  exact ⟨rfl, rfl, rfl, rfl, rfl⟩

/-- Invariant proof for the DMA loop: provided every source byte reads back
as the byte `vals m` (a valid byte value), the loop terminates successfully
and leaves `vals` in OAM. -/
lemma dmaLoop_copy (ops : Ops) (s0 : Motherboard) (offset : Nat) (vals : Nat → Nat)
    (hoff : offset ≤ 0xDF00)
    (hvals : ∀ m, m < 0xA0 →
      getitem ops s0 (m + offset) = Except.ok (vals m) ∧ vals m < 0x100) :
    ∀ k n s, 0xA0 - n ≤ k → LowAgree s s0 →
      (∀ m, m < n → s.lcd.OAM m = vals m) →
      ∃ s2, dmaLoop ops s offset n = Except.ok s2 ∧
        (∀ m, m < 0xA0 → s2.lcd.OAM m = vals m) := by
  intro k
  induction k with
  | zero =>
    intro n s hk hLow hOam
    unfold dmaLoop
    rw [dif_neg (by omega)]
    exact ⟨s, rfl, fun m hm => hOam m (by omega)⟩
  | succ k ih =>
    intro n s hk hLow hOam
    by_cases hn : n < 0xA0
    · have hget : getitem ops s (n + offset) = Except.ok (vals n) := by
        rw [getitem_low_congr ops s s0 hLow (n + offset) (by omega)]
        exact (hvals n hn).1
      have hset := setitem_oam ops s (0xFE00 + n) (vals n) (hvals n hn).2
        (by omega) (by omega)
      unfold dmaLoop
      rw [dif_pos hn]
      simp only [hget, hset]
      refine ih (n + 1)
        { s with lcd := { s.lcd with
            OAM := fun j => if j = 0xFE00 + n - 0xFE00 then vals n else s.lcd.OAM j } }
        (by omega) hLow ?_
      intro m hm
      show (if m = 0xFE00 + n - 0xFE00 then vals n else s.lcd.OAM m) = vals m
      have hidx : 0xFE00 + n - 0xFE00 = n := by omega
      rw [hidx]
      by_cases hmn : m = n
      · rw [if_pos hmn, hmn]
      · rw [if_neg hmn]
        exact hOam m (by omega)
    · unfold dmaLoop
      rw [dif_neg hn]
      exact ⟨s, rfl, fun m hm => hOam m (by omega)⟩

/-- The DMA loop can only fail with the value assertion or the
missing-sound AttributeError, never with a memory access violation. -/
lemma dmaLoop_no_busErr (ops : Ops) (offset : Nat) (hoff : offset ≤ 0xFF00) :
    ∀ k n s e, 0xA0 - n ≤ k → dmaLoop ops s offset n = Except.error e →
      e.isBusErr = false := by
  intro k
  induction k with
  | zero =>
    intro n s e hk h
    unfold dmaLoop at h
    rw [dif_neg (by omega)] at h
    cases h
  | succ k ih =>
    intro n s e hk h
    by_cases hn : n < 0xA0
    · unfold dmaLoop at h
      rw [dif_pos hn] at h
      split at h
      · rename_i e1 heq
        cases h
        rw [getitem_inbounds_error ops s (n + offset) _ (by omega) heq]
        rfl
      · rename_i gv heq
        split at h
        · rename_i e2 heq2
          cases h
          by_cases hv : 0x100 ≤ gv
          · rw [setitem_invalid ops s (0xFE00 + n) gv hv] at heq2
            cases heq2
            rfl
          · rw [setitem_oam ops s (0xFE00 + n) gv (by omega) (by omega) (by omega)] at heq2
            cases heq2
        · rename_i smid heq2
          exact ih (n + 1) smid e (by omega) h
    · unfold dmaLoop at h
      rw [dif_neg hn] at h
      cases h

/-! Concrete peripheral states and operations used to exercise the
theorems on explicit inputs. -/

def timer0 : Timer := ⟨0, 0, 0, 0, 0⟩

def cpu0 : CPU := ⟨0, 0, 0, false, fun _ => 0, 0⟩

def pal0 : PaletteRegister := ⟨0, 0⟩

def lcdc0 : LCDCRegister := ⟨0, 0⟩

def lcd0 : LCD := ⟨fun _ => 0, fun _ => 0, lcdc0, 0, 0, 0, 0, 0, 0, 0, pal0, pal0, pal0, 0⟩

def rend0 : Renderer := ⟨[], false, 0⟩

def sound0 : Sound := ⟨0, 0⟩

def cart0 : Cartridge := ⟨1, 0, 0⟩

def boot0 : BootROM := ⟨fun _ => 0⟩

def ia0 : Interaction := ⟨0⟩

def ram0 : RAM := ⟨fun _ => 0, fun _ => 0, fun _ => 0, fun _ => 0, fun _ => 0⟩

/-- A simple concrete operation bundle: the CPU consumes 4 cycles per
instruction without touching the machine, the timer and LCD report fixed
interrupt distances, the cartridge reads zeros, and every save writes an
empty block that the matching load reads back. -/
def opsId : Ops :=
  { cpuTick := fun s => (s, 4)
    timerTick := fun t _ => (t, false)
    timerCTI := fun _ => 100
    timerReset := fun t => t
    lcdTick := fun l _ => (l, 0)
    lcdCTI := fun _ => 40
    rendererTick := fun r _ _ => r
    renderScreen := fun r _ => r
    cartGet := fun _ _ => 0
    cartSet := fun c _ _ => c
    interactionPull := fun ia v => (ia, v)
    palSet := fun p v => (⟨v, p.internal⟩, decide (p.value ≠ v))
    lcdcSet := fun l v => ⟨v, l.internal⟩
    soundGet := fun _ _ => 0
    soundSet := fun sd _ _ => sd
    cpuSave := fun _ => []
    cpuLoad := fun c f _ => some (c, f)
    lcdSave := fun _ => []
    lcdLoad := fun l f _ => some (l, f)
    soundSave := fun _ => []
    soundLoad := fun sd f _ => some (sd, f)
    rendererSave := fun _ => []
    rendererLoad := fun r f _ => some (r, f)
    ramSave := fun _ => []
    ramLoad := fun r f _ => some (r, f)
    timerSave := fun _ => []
    timerLoad := fun t f _ => some (t, f)
    cartSave := fun _ => []
    cartLoad := fun c f _ => some (c, f) }

/-- The same bundle with a CPU that reports the HALT sentinel. -/
def opsHalt : Ops := { opsId with cpuTick := fun s => (s, -1) }

/-- A concrete motherboard: boot ROM already disabled, sound disabled (and
hence no sound object), default breakpoints. -/
def mb0 : Motherboard :=
  { timer := timer0, interaction := ia0, cartridge := cart0, bootrom := boot0,
    ram := ram0, cpu := cpu0, lcd := lcd0, renderer := rend0,
    sound_enabled := false, sound := none, bootrom_enabled := false,
    serialbuffer := "", breakpoints_enabled := true,
    breakpoints_list := [(0, 0x0048), (0, 0x0050), (0, 0x0040)] }

/-- `mb0` with the CPU stopped on the default breakpoint 0x40. -/
def mbBp : Motherboard := { mb0 with cpu := { cpu0 with PC := 0x40 } }

/-- `mb0` with sound enabled and a sound object present. -/
def mbSnd : Motherboard := { mb0 with sound_enabled := true, sound := some sound0 }

/-- `mb0` with the boot ROM still enabled. -/
def mbOn : Motherboard := { mb0 with bootrom_enabled := true }

/-- The state after writing 1 to 0xFF50 on `mbOn`. -/
def mbOnAfter : Motherboard :=
  { mbOn with
    bootrom_enabled := false,
    ram := { mbOn.ram with
      non_io_internal_ram1 := fun j =>
        if j = 0xFF50 - 0xFF4C then 1 else mbOn.ram.non_io_internal_ram1 j } }

/-- `mb0` with the renderer cache-clear flag already set. -/
def mbCC : Motherboard := { mb0 with renderer := ⟨[], true, 0⟩ }

/-- C7: at all times, for every address a in [0xC000, 0xDE00), getitem(a)
equals getitem(a + 0x2000); echo reads and writes in [0xE000, 0xFE00) are
redirected 0x2000 lower, so setitem(a + 0x2000, v) (for a byte value v)
has the same effect as setitem(a, v). -/
theorem claim_C7_echo (ops : Ops) (s : Motherboard) (a v : Nat)
    (h1 : 0xC000 ≤ a) (h2 : a < 0xDE00) (hv : v < 0x100) :
    getitem ops s a = getitem ops s (a + 0x2000) ∧
    setitem ops s (a + 0x2000) v = setitem ops s a v := by
  have hsub : a + 0x2000 - 0x2000 = a := by omega
  constructor
  · rw [getitem_echo ops s (a + 0x2000) (by omega) (by omega), hsub]
  · rw [setitem_echo ops s (a + 0x2000) v hv (by omega) (by omega), hsub]

/-- Witness for C7 at a = 0xC123, v = 7. -/
theorem claim_C7_echo_witness :
    getitem opsId mb0 0xC123 = getitem opsId mb0 (0xC123 + 0x2000) ∧
    setitem opsId mb0 (0xC123 + 0x2000) 7 = setitem opsId mb0 0xC123 7 :=
  claim_C7_echo opsId mb0 0xC123 7 (by norm_num) (by norm_num) (by norm_num)

/-- C8: tick(0) returns 0 and changes nothing: the loop body never runs
and the state is returned unchanged with remainder 0 (the sound sync hook,
a host-facing flush, needs the sound object to exist when sound is
enabled). -/
theorem claim_C8_tick_zero (ops : Ops) (fuel : Nat) (s : Motherboard)
    (h : s.sound_enabled = true → s.sound.isSome = true) :
    tick ops fuel s 0 = Except.ok (s, 0) := by
  have hexit : tickExit s 0 = Except.ok (s, 0) := by
    unfold tickExit
    by_cases hse : s.sound_enabled = true
    · rw [if_pos hse]
      rcases hsnd : s.sound with _ | sd
      · rw [hsnd] at h
        simp [hse] at h
      · rfl
    · rw [if_neg hse]
  unfold tick
  cases fuel <;> (unfold tickLoop; rw [if_neg (by omega)]; exact hexit)

/-- Witness for C8 on the concrete machine. -/
theorem claim_C8_tick_zero_witness : tick opsId 3 mb0 0 = Except.ok (mb0, 0) :=
  claim_C8_tick_zero opsId 3 mb0 (fun hx => Bool.noConfusion hx)

/-- C9: for every src below 0x100 the DMA transfer only touches in-bounds
bus addresses, so it can never fail with the out-of-range bus error (in
either direction). -/
theorem claim_C9_dma_inbounds (ops : Ops) (s : Motherboard) (src : Nat)
    (hsrc : src < 0x100) (a : Nat) :
    transfer_DMA ops s src ≠ Except.error (MBErr.busRead a) ∧
    transfer_DMA ops s src ≠ Except.error (MBErr.busWrite a) := by
  constructor <;> intro h <;>
  · unfold transfer_DMA at h
    have := dmaLoop_no_busErr ops (src * 0x100) (by omega) 0xA1 0 s _ (by omega) h
    simp [MBErr.isBusErr] at this

/-- Witness for C9 at src = 0xC0. -/
theorem claim_C9_dma_inbounds_witness :
    transfer_DMA opsId mb0 0xC0 ≠ Except.error (MBErr.busRead 0x12345) ∧
    transfer_DMA opsId mb0 0xC0 ≠ Except.error (MBErr.busWrite 0x12345) :=
  claim_C9_dma_inbounds opsId mb0 0xC0 (by norm_num) 0x12345

/-- C10: the renderer's clearcache flag is monotone under bus writes: no
successful setitem ever clears it, and the palette writes at 0xFF47,
0xFF48, 0xFF49 OR the palette setter's "changed" boolean into it. -/
theorem claim_C10_clearcache_monotone :
    (∀ (ops : Ops) (s : Motherboard) (a v : Nat) (s2 : Motherboard),
      setitem ops s a v = Except.ok s2 →
      s.renderer.clearcache = true → s2.renderer.clearcache = true) ∧
    (∀ (ops : Ops) (s : Motherboard) (v : Nat) (s2 : Motherboard), v < 0x100 →
      setitem ops s 0xFF47 v = Except.ok s2 →
      s2.renderer.clearcache = (s.renderer.clearcache || (ops.palSet s.lcd.BGP v).2)) ∧
    (∀ (ops : Ops) (s : Motherboard) (v : Nat) (s2 : Motherboard), v < 0x100 →
      setitem ops s 0xFF48 v = Except.ok s2 →
      s2.renderer.clearcache = (s.renderer.clearcache || (ops.palSet s.lcd.OBP0 v).2)) ∧
    (∀ (ops : Ops) (s : Motherboard) (v : Nat) (s2 : Motherboard), v < 0x100 →
      setitem ops s 0xFF49 v = Except.ok s2 →
      s2.renderer.clearcache = (s.renderer.clearcache || (ops.palSet s.lcd.OBP1 v).2)) := by
  refine ⟨fun ops s a v s2 h hc => (setitem_mono ops s a v s2 h).2 hc, ?_, ?_, ?_⟩
  · intro ops s v s2 hv h
    rw [setitem_ff47 ops s v hv] at h
    injection h with h
    subst h
    rfl
  · intro ops s v s2 hv h
    rw [setitem_ff48 ops s v hv] at h
    injection h with h
    subst h
    rfl
  · intro ops s v s2 hv h
    rw [setitem_ff49 ops s v hv] at h
    injection h with h
    subst h
    rfl

/-- Witness for C10: a STAT write keeps an already-set clearcache, and a
BGP write ORs the setter's changed flag in. -/
theorem claim_C10_clearcache_monotone_witness :
    ({ mbCC with lcd := { mbCC.lcd with STAT := 5 } } : Motherboard).renderer.clearcache = true ∧
    ({ mb0 with
      lcd := { mb0.lcd with BGP := (opsId.palSet mb0.lcd.BGP 3).1 },
      renderer := { mb0.renderer with
        clearcache := mb0.renderer.clearcache || (opsId.palSet mb0.lcd.BGP 3).2 } } :
          Motherboard).renderer.clearcache =
      (mb0.renderer.clearcache || (opsId.palSet mb0.lcd.BGP 3).2) := by
  constructor
  · exact claim_C10_clearcache_monotone.1 opsId mbCC 0xFF41 5 _
      (setitem_ff41 opsId mbCC 5 (by norm_num)) rfl
  · exact claim_C10_clearcache_monotone.2.1 opsId mb0 3 _ (by norm_num)
      (setitem_ff47 opsId mb0 3 (by norm_num))

/-- C4: tick's return value is at most 0 on normal loop exit; a strictly
positive return can only arise from a breakpoint match right after an
instruction, and the breakpoint branch of the loop body is an immediate
return of exactly the budget that was remaining when the iteration
started. -/
theorem claim_C4_tick_remainder :
    (∀ (ops : Ops) (fuel : Nat) (s s2 : Motherboard) (b r : Int),
      tick ops fuel s b = Except.ok (s2, r) →
      r ≤ 0 ∨ (0 < r ∧ s2.breakpoints_enabled = true ∧
        breakpoint_reached s2 = true)) ∧
    (∀ (ops : Ops) (s : Motherboard) (b : Int) (s2 : Motherboard) (r : Int),
      tickStep ops s b = StepRes.bp s2 r →
      r = b ∧ s2.breakpoints_enabled = true ∧ breakpoint_reached s2 = true) := by
  constructor
  · intro ops fuel s s2 b r h
    by_cases hr : 0 < r
    · have hb := tickLoop_pos_bp ops fuel s b s2 r h hr
      rw [Bool.and_eq_true] at hb
      exact Or.inr ⟨hr, hb.1, hb.2⟩
    · exact Or.inl (by omega)
  · intro ops s b s2 r h
    obtain ⟨hr, _, hg⟩ := tickStep_inv_bp ops s b s2 r h
    rw [Bool.and_eq_true] at hg
    exact ⟨hr, hg.1, hg.2⟩

/-- Witness for C4: a machine parked on the default breakpoint 0x40
returns the full budget 10, and the loop body's breakpoint branch returns
exactly the remaining 10. -/
theorem claim_C4_tick_remainder_witness :
    ((10 : Int) ≤ 0 ∨ ((0 : Int) < 10 ∧ mbBp.breakpoints_enabled = true ∧
      breakpoint_reached mbBp = true)) ∧
    ((10 : Int) = 10 ∧ mbBp.breakpoints_enabled = true ∧
      breakpoint_reached mbBp = true) := by
  have hstep : tickStep opsId mbBp 10 = StepRes.bp mbBp 10 := by
    unfold tickStep
    rw [if_pos (by decide)]
    rfl
  constructor
  · exact claim_C4_tick_remainder.1 opsId 1 mbBp mbBp 10 10 (by
      show tickLoop opsId 1 mbBp 10 = Except.ok (mbBp, 10)
      unfold tickLoop
      rw [if_pos (by norm_num), hstep])
  · exact claim_C4_tick_remainder.2 opsId mbBp 10 mbBp 10 hstep

/-- C6: breakpoint_reached is true exactly when some (bank, pc) entry of
breakpoints_list matches the CPU's PC under the window-disambiguation
rules, and a fresh motherboard's list holds exactly the three bank-0
entries 0x48, 0x50, 0x40. -/
theorem claim_C6_breakpoints :
    (∀ s : Motherboard, breakpoint_reached s = true ↔
      ∃ bp ∈ s.breakpoints_list, s.cpu.PC = bp.2 ∧
        ((bp.2 < 0x4000 ∧ bp.1 = 0 ∧ s.bootrom_enabled = false) ∨
         (0x4000 ≤ bp.2 ∧ bp.2 < 0x8000 ∧ s.cartridge.rombank_selected = bp.1) ∨
         (0xA000 ≤ bp.2 ∧ bp.2 < 0xC000 ∧ s.cartridge.rambank_selected = bp.1) ∨
         (bp.2 < 0x100 ∧ bp.1 = -1 ∧ s.bootrom_enabled = true))) ∧
    (∀ (t : Timer) (ia : Interaction) (c : Cartridge) (bo : BootROM) (ra : RAM)
      (cp : CPU) (l : LCD) (re : Renderer) (sd : Sound) (se pf : Bool),
      (Motherboard.init t ia c bo ra cp l re sd se pf).breakpoints_list =
        [(0, 0x0048), (0, 0x0050), (0, 0x0040)]) := by
  constructor
  · intro s
    unfold breakpoint_reached
    simp only [List.any_eq_true, Bool.and_eq_true, Bool.or_eq_true,
      decide_eq_true_eq, Bool.not_eq_true', and_assoc, or_assoc]
  · intro t ia c bo ra cp l re sd se pf
    rfl

/-- Counterexample to C2 as stated: load_state is a motherboard operation
that can set bootrom_enabled back to true.  On a machine whose boot ROM is
disabled, loading a stream whose boot-ROM flag byte is 1 re-enables it. -/
theorem claim_C2_load_reenables :
    mbSnd.bootrom_enabled = false ∧
    load_state opsId mbSnd [STATE_VERSION, 1] =
      some { mbSnd with bootrom_enabled := true, renderer := ⟨[], true, 0⟩ } ∧
    ({ mbSnd with bootrom_enabled := true, renderer := ⟨[], true, 0⟩ } :
      Motherboard).bootrom_enabled = true :=
  ⟨rfl, rfl, rfl⟩

/-- C2 (amended): among bus writes and tick — load_state excepted, since
it restores the saved flag — bootrom_enabled never returns to true once
false: every successful setitem preserves a disabled boot ROM, tick
preserves it whenever the CPU step does (the CPU acts only through the
bus), and after setitem(0xFF50, 1) the boot ROM is off and every read
below 0x100 returns the cartridge's byte. -/
theorem claim_C2_bootrom_latch :
    (∀ (ops : Ops) (s : Motherboard) (i v : Nat) (s2 : Motherboard),
      setitem ops s i v = Except.ok s2 →
      s.bootrom_enabled = false → s2.bootrom_enabled = false) ∧
    (∀ ops : Ops,
      (∀ t, t.bootrom_enabled = false → ((ops.cpuTick t).1).bootrom_enabled = false) →
      ∀ (fuel : Nat) (s : Motherboard) (b : Int) (s2 : Motherboard) (r : Int),
        s.bootrom_enabled = false →
        tick ops fuel s b = Except.ok (s2, r) → s2.bootrom_enabled = false) ∧
    (∀ (ops : Ops) (s s2 : Motherboard),
      setitem ops s 0xFF50 1 = Except.ok s2 →
      s2.bootrom_enabled = false ∧
      ∀ i, i ≤ 0xFF → getitem ops s2 i = Except.ok (ops.cartGet s2.cartridge i)) := by
  refine ⟨?_, ?_, ?_⟩
  · intro ops s i v s2 h hs
    rcases (setitem_mono ops s i v s2 h).1 with he | he
    · rw [he, hs]
    · exact he
  · intro ops hcpu fuel s b s2 r hs h
    exact tickLoop_bootrom ops hcpu fuel s b s2 r hs h
  · intro ops s s2 h
    rw [setitem_nonio1 ops s 0xFF50 1 (by norm_num) (by norm_num) (by norm_num)] at h
    have hb : s2.bootrom_enabled = false := by
      split_ifs at h with hcond
      · injection h with h
        subst h
        rfl
      · injection h with h
        subst h
        show s.bootrom_enabled = false
        have hne : s.bootrom_enabled ≠ true := fun hbt => hcond ⟨hbt, rfl, rfl⟩
        simpa using hne
    exact ⟨hb, fun i hi =>
      getitem_rom0 ops s2 i (by omega) (fun hc => Bool.noConfusion (hb ▸ hc.2))⟩

lemma tick_mb0_zero : tick opsId 1 mb0 0 = Except.ok (mb0, 0) := rfl

/-- Witness for the amended C2: a STAT write, a zero-budget tick and the
0xFF50 write all leave the boot ROM off. -/
theorem claim_C2_bootrom_latch_witness :
    ({ mb0 with lcd := { mb0.lcd with STAT := 5 } } : Motherboard).bootrom_enabled = false ∧
    mb0.bootrom_enabled = false ∧
    getitem opsId mbOnAfter 0 = Except.ok (opsId.cartGet mbOnAfter.cartridge 0) := by
  refine ⟨?_, ?_, ?_⟩
  · exact claim_C2_bootrom_latch.1 opsId mb0 0xFF41 5 _
      (setitem_ff41 opsId mb0 5 (by norm_num)) rfl
  · exact claim_C2_bootrom_latch.2.1 opsId (fun t ht => ht) 1 mb0 0 mb0 0 rfl
      tick_mb0_zero
  · exact (claim_C2_bootrom_latch.2.2 opsId mbOn mbOnAfter
      (by
        rw [setitem_nonio1 opsId mbOn 0xFF50 1 (by norm_num) (by norm_num) (by norm_num),
          if_pos ⟨rfl, rfl, rfl⟩]
        rfl)).2 0 (by norm_num)

/-- C1 (failing input): on a machine constructed with sound disabled, the
saved stream holds no sound block, yet load_state at STATE_VERSION = 6
unconditionally dereferences the sound object — which was never created —
so loading the state just saved fails instead of round-tripping. -/
theorem claim_C1_sound_block_mismatch :
    mb0.sound_enabled = false ∧
    save_state opsId mb0 = some [STATE_VERSION, 0] ∧
    load_state opsId mb0 [STATE_VERSION, 0] = none :=
  ⟨rfl, rfl, rfl⟩

/-- C3: writing src < 0xE0 to 0xFF46 performs the 160-byte DMA copy
through the normal bus paths: afterwards each OAM byte, read through the
bus, equals the byte the bus would have returned at src*0x100 + m just
before the DMA; and reads of 0xFF46 always return 0x00.  The source bytes
are assumed to read back as bytes, as every backing store holds bytes. -/
theorem claim_C3_dma_copy (ops : Ops) (s : Motherboard) :
    getitem ops s 0xFF46 = Except.ok 0x00 ∧
    ∀ src, src < 0xE0 →
      (∀ m, m < 0xA0 → ∃ w, getitem ops s (src * 0x100 + m) = Except.ok w ∧ w < 0x100) →
      ∃ s2, setitem ops s 0xFF46 src = Except.ok s2 ∧
        ∀ m, m < 0xA0 →
          getitem ops s2 (0xFE00 + m) = getitem ops s (src * 0x100 + m) := by
  refine ⟨getitem_ff46 ops s, fun src hsrc H => ?_⟩
  classical
  let vals : Nat → Nat := fun m => if hm : m < 0xA0 then (H m hm).choose else 0
  have hvals : ∀ m, m < 0xA0 →
      getitem ops s (m + src * 0x100) = Except.ok (vals m) ∧ vals m < 0x100 := by
    intro m hm
    have hspec := (H m hm).choose_spec
    have hv : vals m = (H m hm).choose := by
      simp only [vals]
      rw [dif_pos hm]
    rw [hv, Nat.add_comm]
    exact hspec
  obtain ⟨s2, hloop, hOam⟩ := dmaLoop_copy ops s (src * 0x100) vals (by omega) hvals
    0xA1 0 s (by omega) ⟨rfl, rfl, rfl, rfl, rfl⟩ (fun m hm => absurd hm (by omega))
  refine ⟨s2, ?_, ?_⟩
  · rw [setitem_ff46 ops s src (by omega)]
    exact hloop
  · intro m hm
    rw [getitem_oam ops s2 (0xFE00 + m) (by omega) (by omega)]
    have hidx : 0xFE00 + m - 0xFE00 = m := by omega
    rw [hidx, hOam m hm, Nat.add_comm (src * 0x100) m]
    exact ((hvals m hm).1).symm

/-- Witness for C3 at src = 0xC0 on the concrete machine, whose work RAM
holds zeros. -/
theorem claim_C3_dma_copy_witness :
    ∃ s2, setitem opsId mb0 0xFF46 0xC0 = Except.ok s2 ∧
      ∀ m, m < 0xA0 →
        getitem opsId s2 (0xFE00 + m) = getitem opsId mb0 (0xC0 * 0x100 + m) :=
  (claim_C3_dma_copy opsId mb0).2 0xC0 (by norm_num) (fun m hm =>
    ⟨0, by
      rw [getitem_wram opsId mb0 (0xC0 * 0x100 + m) (by omega) (by omega)]
      rfl, by norm_num⟩)

/-- C5: in a tick iteration where the CPU reports the HALT sentinel -1
(and no breakpoint fires), the elapsed cycles equal
min(remaining budget, timer.cyclestointerrupt(), lcd.cyclestointerrupt()),
the budget decreases by exactly that amount, and with profiling enabled
the HALT opcode's hitrate entry 0x76 grows by elapsed // 4. -/
theorem claim_C5_halt_fast_forward (ops : Ops) (s : Motherboard) (b : Int)
    (hhalt : (ops.cpuTick s).2 = -1)
    (hbp : ((ops.cpuTick s).1.breakpoints_enabled &&
        breakpoint_reached (ops.cpuTick s).1) = false)
    (hsnd : (ops.cpuTick s).1.sound_enabled = true →
        ((ops.cpuTick s).1.sound).isSome = true) :
    ∃ s2, tickStep ops s b =
        StepRes.cont s2 (b - min b (min (ops.timerCTI (ops.cpuTick s).1.timer)
          (ops.lcdCTI (ops.cpuTick s).1.lcd))) ∧
      ((ops.cpuTick s).1.cpu.profiling = true →
        s2.cpu.hitrate 0x76 = (ops.cpuTick s).1.cpu.hitrate 0x76 +
          Int.fdiv (min b (min (ops.timerCTI (ops.cpuTick s).1.timer)
            (ops.lcdCTI (ops.cpuTick s).1.lcd))) 4) := by
  have hE : tickHaltCycles ops (ops.cpuTick s).1 (ops.cpuTick s).2 b =
      min b (min (ops.timerCTI (ops.cpuTick s).1.timer)
        (ops.lcdCTI (ops.cpuTick s).1.lcd)) := by
    unfold tickHaltCycles
    rw [if_pos hhalt]
    omega
  have hps := tickProfile_sound (ops.cpuTick s).1 (ops.cpuTick s).2
    (tickHaltCycles ops (ops.cpuTick s).1 (ops.cpuTick s).2 b)
  obtain ⟨s3, hs3, hb3, hcpu3⟩ := tickSound_total
    (tickProfile (ops.cpuTick s).1 (ops.cpuTick s).2
      (tickHaltCycles ops (ops.cpuTick s).1 (ops.cpuTick s).2 b))
    (tickHaltCycles ops (ops.cpuTick s).1 (ops.cpuTick s).2 b)
    (by rw [hps.1, hps.2]; exact hsnd)
  unfold tickStep
  rw [if_neg (by simp [hbp])]
  simp only [hs3]
  refine ⟨tickLCD ops
    (tickTimer ops s3 (tickHaltCycles ops (ops.cpuTick s).1 (ops.cpuTick s).2 b))
    (tickHaltCycles ops (ops.cpuTick s).1 (ops.cpuTick s).2 b), ?_, ?_⟩
  · rw [hE]
  · intro hp
    rw [tickLCD_hitrate, tickTimer_hitrate, hcpu3, hhalt,
      tickProfile_cpu_on (ops.cpuTick s).1 _ hp]
    have hE2 : tickHaltCycles ops (ops.cpuTick s).1 (-1) b =
        min b (min (ops.timerCTI (ops.cpuTick s).1.timer)
          (ops.lcdCTI (ops.cpuTick s).1.lcd)) := by
      unfold tickHaltCycles
      rw [if_pos rfl]
      omega
    rw [hE2]

/-- Witness for C5: a halting CPU with budget 1000 and interrupt distances
100 and 40 elapses 40 cycles. -/
theorem claim_C5_halt_fast_forward_witness :
    ∃ s2, tickStep opsHalt mb0 1000 =
        StepRes.cont s2 (1000 - min 1000 (min (opsHalt.timerCTI mb0.timer)
          (opsHalt.lcdCTI mb0.lcd))) ∧
      (mb0.cpu.profiling = true →
        s2.cpu.hitrate 0x76 = mb0.cpu.hitrate 0x76 +
          Int.fdiv (min 1000 (min (opsHalt.timerCTI mb0.timer)
            (opsHalt.lcdCTI mb0.lcd))) 4) :=
  claim_C5_halt_fast_forward opsHalt mb0 1000 rfl rfl (fun hx => Bool.noConfusion hx)
